import Mathlib

/-!
Shallow embedding of the adapter layer of `single_instagram_post_creator`
(five Instagram-posting tools: Ayrshare, Zapier webhook, Buffer,
Instagram Graph API, Late.io).

Modelling conventions:
* Python strings are Lean `String`s (compared and sliced via their `.data`
  character lists where needed).
* Parsed JSON bodies are the inductive `Json` below; `response.json()`
  raising a decode error is modelled by the `body := none` case of an
  `HttpResponse`.
* Every `requests` call is given its outcome by an ambient "world" value
  (`NetOutcome` per call).  A call that `requests` refuses before touching
  the network (URL without an `http://`/`https://` scheme raises
  `MissingSchema`/`InvalidSchema`) is modelled inside `requestsSend` and is
  not counted as a dispatched network call.
* Python exceptions are the `PyErr` type, and code inside a `try:` block is
  a value of `Except PyErr _`; the `except` clauses are explicit handler
  functions.  `Timeout` and `ConnectionError` are subclasses of
  `RequestException`; `jsonDecode` models `requests.exceptions.JSONDecodeError`
  (also a `RequestException` in current `requests`); `typeError`, `keyError`,
  `attributeError`, `indexError` and `valueError` are only caught by generic
  `except Exception` clauses.
* Adapter results (the dictionaries passed to `json.dumps`) are Lean
  structures / inductives carrying exactly the fields the source writes.
* Time instants are unix seconds as `Int`; each adapter that consults the
  clock receives `now` in its world.
-/

namespace CrewZap

/-- JSON values, as produced by `response.json()`. -/
inductive Json where
  | null
  | bool (b : Bool)
  | num (n : Int)
  | str (s : String)
  | arr (elems : List Json)
  | obj (fields : List (String × Json))
deriving Repr

/-- Structural equality of JSON values (Python `==` on parsed bodies). -/
def Json.beq : Json → Json → Bool
  | .null, .null => true
  | .bool a, .bool b => a == b
  | .num a, .num b => a == b
  | .str a, .str b => a == b
  | .arr xs, .arr ys => goList xs ys
  | .obj fs, .obj gs => goObj fs gs
  | _, _ => false
where
  goList : List Json → List Json → Bool
    | [], [] => true
    | x :: xs, y :: ys => Json.beq x y && goList xs ys
    | _, _ => false
  goObj : List (String × Json) → List (String × Json) → Bool
    | [], [] => true
    | (k, v) :: fs, (l, w) :: gs => k == l && Json.beq v w && goObj fs gs
    | _, _ => false

instance : BEq Json := ⟨Json.beq⟩

/-- Python exceptions that the adapter bodies can raise. -/
inductive PyErr where
  | timeout
  | connError
  | missingSchema
  | reqExc (msg : String)
  | jsonDecode
  | typeError
  | keyError
  | attributeError
  | indexError
  | valueError (msg : String)
deriving Repr, DecidableEq

/-- Is the exception a `requests.exceptions.RequestException`?
(`Timeout` and `ConnectionError` are subclasses; `MissingSchema` /
`InvalidSchema` too; `requests.exceptions.JSONDecodeError` is one in
current `requests`.) -/
def PyErr.isRequestException : PyErr → Bool
  | .timeout | .connError | .missingSchema | .reqExc _ | .jsonDecode => true
  | _ => false

/-- An HTTP response: status code, parsed JSON body (`none` when
`response.json()` would raise), raw text, and the `content-type` header
(empty string when absent).  `response.content` is empty iff `text` is. -/
structure HttpResponse where
  status : Nat
  body : Option Json
  text : String
  contentType : String := ""
deriving Repr

/-- What the network does to a single dispatched request. -/
inductive NetOutcome where
  | timeout
  | connError
  | reqExc (msg : String)
  | resp (r : HttpResponse)
deriving Repr

/-- Tags for the HTTP calls an adapter can dispatch. -/
inductive Call where
  | ayrsharePost
  | zapierPost
  | bufferProfile
  | bufferHead
  | bufferPost
  | igAccount
  | igContainer
  | igPublish
  | latePost
deriving Repr, DecidableEq

/-- Does `requests` accept this URL?  For URLs without an `http://` or
`https://` scheme, `requests` raises `MissingSchema` / `InvalidSchema`
before any network traffic. -/
def urlDispatchable (url : String) : Bool :=
  "http://".data.isPrefixOf url.data || "https://".data.isPrefixOf url.data

/-- One `requests.get/post/head` call: either refused locally for a bad
scheme (no network call recorded), or dispatched with the world-supplied
outcome, which may be a transport-level exception. -/
def requestsSend (tag : Call) (url : String) (o : NetOutcome) :
    Except PyErr HttpResponse × List Call :=
  if urlDispatchable url then
    (match o with
     | .timeout => .error .timeout
     | .connError => .error .connError
     | .reqExc m => .error (.reqExc m)
     | .resp r => .ok r, [tag])
  else
    (.error .missingSchema, [])

/-- Python truthiness of an optional string (`None` and `""` are falsy). -/
def pyTruthyOptStr : Option String → Bool
  | none => false
  | some s => s ≠ ""

/-- Python truthiness of a JSON value. -/
def Json.pyTruthy : Json → Bool
  | .null => false
  | .bool b => b
  | .num n => n != 0
  | .str s => s != ""
  | .arr xs => !xs.isEmpty
  | .obj fs => !fs.isEmpty

/-- Does `pat` occur as a contiguous sublist of `l`? -/
def listInfixOf (pat : List Char) : List Char → Bool
  | [] => pat.isEmpty
  | c :: tl => pat.isPrefixOf (c :: tl) || listInfixOf pat tl

/-- Substring test (Python `pat in s` for strings). -/
def strContains (s pat : String) : Bool :=
  listInfixOf pat.data s.data

/-- Python `s.startswith(pre)` (`String.startsWith`, phrased over the
character lists so it computes by reduction). -/
def strStartsWith (s pre : String) : Bool :=
  pre.data.isPrefixOf s.data

/-- Split a character list at every occurrence of `sep`
(`str.split(sep)` on a one-character separator). -/
def splitOnChar (sep : Char) : List Char → List (List Char)
  | [] => [[]]
  | c :: tl =>
      let rest := splitOnChar sep tl
      if c = sep then [] :: rest
      else
        match rest with
        | r :: rs => (c :: r) :: rs
        | [] => [[c]]

/-- Numeric value of a digit string (only applied after a digits
check). -/
def digitsToNat (l : List Char) : Nat :=
  l.foldl (fun acc c => acc * 10 + (c.toNat - 48)) 0

/-- Strip leading and trailing whitespace (Python `str.strip()`). -/
def trimChars (l : List Char) : List Char :=
  ((l.dropWhile Char.isWhitespace).reverse.dropWhile Char.isWhitespace).reverse

/-- Python `s.strip()`. -/
def pyStrip (s : String) : String :=
  String.mk (trimChars s.data)

/-- Python `s.lower()`. -/
def pyLower (s : String) : String :=
  String.mk (s.data.map Char.toLower)

/-- Python `key in j` for a parsed JSON value: key lookup on objects,
membership on arrays, substring on strings; `in` on other values raises
`TypeError`. -/
def Json.hasKey : Json → String → Except PyErr Bool
  | .obj fs, k => .ok ((fs.lookup k).isSome)
  | .arr xs, k => .ok (xs.contains (.str k))
  | .str s, k => .ok (strContains s k)
  | _, _ => .error .typeError

/-- Python `j[k]` with a string key: objects only; a missing key raises
`KeyError`, any other value raises `TypeError`. -/
def Json.item : Json → String → Except PyErr Json
  | .obj fs, k =>
      match fs.lookup k with
      | some v => .ok v
      | none => .error .keyError
  | _, _ => .error .typeError

/-- Python `j.get(k)` (`dict.get`, defaulting to `None`): objects only,
anything else raises `AttributeError`. -/
def Json.dictGet : Json → String → Except PyErr (Option Json)
  | .obj fs, k => .ok (fs.lookup k)
  | _, _ => .error .attributeError

/-- Python `len(j)`: arrays, strings and objects have a length; other
values raise `TypeError`. -/
def Json.pyLen : Json → Except PyErr Nat
  | .arr xs => .ok xs.length
  | .str s => .ok s.length
  | .obj fs => .ok fs.length
  | _ => .error .typeError

/-- Python `j[0]`: first element of an array (or one-character string of
a string); `0` is not a string key for objects (`KeyError`), other values
raise `TypeError`. -/
def Json.pyIndexZero : Json → Except PyErr Json
  | .arr [] => .error .indexError
  | .arr (x :: _) => .ok x
  | .str s =>
      match s.data with
      | [] => .error .indexError
      | c :: _ => .ok (.str (String.mk [c]))
  | .obj _ => .error .keyError
  | _ => .error .typeError

/-- A rough Python `str()` of a JSON value (only ever used inside
human-readable messages; no claim depends on its exact text). -/
def Json.pyStr : Json → String
  | .null => "None"
  | .bool b => if b then "True" else "False"
  | .num n => toString n
  | .str s => s
  | .arr _ => "[...]"
  | .obj _ => "{...}"

/-- The result record of a schema-validated tool invocation: either the
typed validation error produced by the pydantic input schema (raised to
the orchestration framework as a structured `ValidationError`, never as a
crash), or the string result of `_run`. -/
inductive Invoked (α : Type) where
  | schemaError (msg : String)
  | output (r : α)
deriving Repr

/-! ## Date / time format checkers (pydantic validators of the Ayrshare tool)

`datetime.strptime(v, "%Y-%m-%d")`: `%Y` matches exactly 4 digits in this
pattern, `%m` and `%d` match 1–2 digits, and the resulting calendar date
must exist (year 1–9999, month 1–12, day within the month's length,
Gregorian leap rule). -/

def isDigits (l : List Char) : Bool :=
  !l.isEmpty && l.all Char.isDigit

def isLeapYear (y : Nat) : Bool :=
  (y % 4 == 0 && y % 100 != 0) || (y % 400 == 0)

def daysInMonth (y m : Nat) : Nat :=
  if m = 2 then (if isLeapYear y then 29 else 28)
  else if m = 4 || m = 6 || m = 9 || m = 11 then 30
  else 31

/-- Does `datetime.strptime(s, "%Y-%m-%d")` succeed?  CPython's `%Y`
matches exactly 4 digits here; `%m` and `%d` match 1–2. -/
def isValidDateYMD (s : String) : Bool :=
  match splitOnChar '-' s.data with
  | [ys, ms, ds] =>
      isDigits ys && isDigits ms && isDigits ds &&
      ys.length = 4 && ms.length ≤ 2 && ds.length ≤ 2 &&
      (let y := digitsToNat ys
       let m := digitsToNat ms
       let d := digitsToNat ds
       1 ≤ y && 1 ≤ m && m ≤ 12 && 1 ≤ d && d ≤ daysInMonth y m)
  | _ => false

/-- The Ayrshare time validator's regex
`^([0-1]?[0-9]|2[0-3]):[0-5][0-9]$`. -/
def isValidTimeHM (s : String) : Bool :=
  match splitOnChar ':' s.data with
  | [hs, ms] =>
      (match hs with
       | [c] => c.isDigit
       | [c1, c2] =>
           ((c1 == '0' || c1 == '1') && c2.isDigit) ||
           (c1 == '2' && '0' ≤ c2 && c2 ≤ '3')
       | _ => false) &&
      (match ms with
       | [m1, m2] => ('0' ≤ m1 && m1 ≤ '5') && m2.isDigit
       | _ => false)
  | _ => false

/-- Does `datetime.fromisoformat(d ++ "T" ++ t ++ ":00+00:00")` succeed
(the string `_run` builds from `schedule_date`/`schedule_time`)?  It does
exactly when the date part is a zero-padded valid `YYYY-MM-DD` and the
time part a zero-padded `HH:MM` within range. -/
def isoCombineOk (d t : String) : Bool :=
  (match splitOnChar '-' d.data with
   | [ys, ms, ds] =>
       isDigits ys && isDigits ms && isDigits ds &&
       ys.length = 4 && ms.length = 2 && ds.length = 2 &&
       (let y := digitsToNat ys
        let m := digitsToNat ms
        let dd := digitsToNat ds
        1 ≤ y && 1 ≤ m && m ≤ 12 && 1 ≤ dd && dd ≤ daysInMonth y m)
   | _ => false) &&
  (match splitOnChar ':' t.data with
   | [hs, ms] =>
       isDigits hs && isDigits ms && hs.length = 2 && ms.length = 2 &&
       digitsToNat hs ≤ 23 && digitsToNat ms ≤ 59
   | _ => false)

/-! ## Ayrshare adapter (`ayrshare_instagram_publisher.py`) -/

/-- Raw caller-supplied fields, before pydantic schema validation
(`none` = field absent). -/
structure AyrRaw where
  post_text : Option String
  image_url : Option String
  schedule_date : Option String
  schedule_time : Option String
deriving Repr, DecidableEq

/-- A schema-validated `AyrshareInstagramRequest`. -/
structure AyrInput where
  post_text : String
  image_url : Option String
  schedule_date : Option String
  schedule_time : Option String
deriving Repr, DecidableEq

/-- The pydantic validators of `AyrshareInstagramRequest`: `post_text` is
required; `schedule_date` must satisfy `strptime("%Y-%m-%d")`,
`schedule_time` the `HH:MM` regex, and a non-blank `image_url` must start
with `http://` or `https://`.  A failure is surfaced to the caller as a
typed `ValidationError`, never as an uncaught fault. -/
def ayrshareValidate (r : AyrRaw) : Except String AyrInput :=
  match r.post_text with
  | none => .error "field required: post_text"
  | some pt =>
      if !(r.schedule_date.all isValidDateYMD) then
        .error "schedule_date must be in YYYY-MM-DD format"
      else if !(r.schedule_time.all isValidTimeHM) then
        .error "schedule_time must be in HH:MM format (24-hour)"
      else if !(r.image_url.all fun v =>
          pyStrip v == "" || strStartsWith v "http://" ||
            strStartsWith v "https://") then
        .error "image_url must be a valid HTTP/HTTPS URL"
      else
        .ok ⟨pt, r.image_url, r.schedule_date, r.schedule_time⟩

/-- The JSON record `AyrshareInstagramPublisher._run` serializes and
returns.  Error records carry only `status`, `message`, `post_id`;
the 200-branch additionally sets `scheduled` and `schedule_time`. -/
structure AyrResult where
  status : String
  message : String
  post_id : Option Json
  scheduled : Option Bool := none
  schedule_time : Option String := none
deriving Repr

def ayrshareApiUrl : String := "https://app.ayrshare.com/api/post"

/-- The post-id extraction of the Ayrshare 200-branch:
`'id' in response_data`, else `'data' in response_data` with
`response_data['data'].get('id')` when `data` is a dict. -/
def ayrExtractId (j : Json) : Except PyErr (Option Json) := do
  let hasId ← j.hasKey "id"
  if hasId then do
    let v ← j.item "id"
    pure (some v)
  else do
    let hasData ← j.hasKey "data"
    if hasData then do
      let dv ← j.item "data"
      match dv with
      | .obj fs => pure (fs.lookup "id")
      | _ => pure none
    else
      pure none

/-- The success record of the Ayrshare 200-branch. -/
def ayrSuccess (sched : Option (String × String)) (post_id : Option Json) :
    AyrResult :=
  { status := "success",
    message :=
      match sched with
      | some (d, t) =>
          "Post scheduled successfully for " ++ d ++ " at " ++ t ++
            " on Instagram @kskk.2031"
      | none => "Post published successfully to Instagram @kskk.2031",
    post_id := post_id,
    scheduled := some sched.isSome,
    schedule_time := sched.map (fun p => p.1 ++ " " ++ p.2) }

/-- The response-normalization part of `_run` (the code after
`requests.post` returns a response), for a request whose scheduling pair
is `sched`. -/
def ayrRespond (sched : Option (String × String)) (resp : HttpResponse) :
    Except PyErr AyrResult :=
  if resp.status = 200 then
    match resp.body with
    | none => .error .jsonDecode
    | some j => (ayrExtractId j).map (ayrSuccess sched)
  else if resp.status = 401 then
    .ok { status := "error",
          message := "Authentication failed - invalid API key",
          post_id := none }
  else if resp.status = 400 then
    let m :=
      match resp.body with
      | some (.obj fs) =>
          match fs.lookup "message" with
          | some v => Json.pyStr v
          | none => "Bad request - check your parameters"
      | _ => "Bad request - invalid parameters or data format"
    .ok { status := "error", message := "API error: " ++ m, post_id := none }
  else if resp.status = 429 then
    .ok { status := "error",
          message := "Rate limit exceeded - please try again later",
          post_id := none }
  else
    .ok { status := "error",
          message := "API request failed with status code " ++
            toString resp.status ++ ": " ++ resp.text,
          post_id := none }

/-- Body of `_run` inside its `try:` block (payload construction,
scheduling handling, the single `requests.post`, response
normalization), together with the dispatched calls. -/
def ayrshareRunE (i : AyrInput) (w : NetOutcome) :
    Except PyErr AyrResult × List Call :=
  if pyTruthyOptStr i.schedule_date && pyTruthyOptStr i.schedule_time then
    let d := i.schedule_date.getD ""
    let t := i.schedule_time.getD ""
    if isoCombineOk d t then
      match requestsSend .ayrsharePost ayrshareApiUrl w with
      | (.error e, cs) => (.error e, cs)
      | (.ok resp, cs) => (ayrRespond (some (d, t)) resp, cs)
    else
      (.ok { status := "error",
             message := "Invalid schedule date/time combination: invalid isoformat string",
             post_id := none }, [])
  else if pyTruthyOptStr i.schedule_date || pyTruthyOptStr i.schedule_time then
    (.ok { status := "error",
           message := "Both schedule_date and schedule_time must be provided for scheduling",
           post_id := none }, [])
  else
    match requestsSend .ayrsharePost ayrshareApiUrl w with
    | (.error e, cs) => (.error e, cs)
    | (.ok resp, cs) => (ayrRespond none resp, cs)

/-- The `except` clauses of `_run`: `Timeout`, `ConnectionError`,
`RequestException`, then a catch-all `except Exception`. -/
def ayrshareHandle : PyErr → AyrResult
  | .timeout =>
      { status := "error",
        message := "Request timed out - please check your internet connection and try again",
        post_id := none }
  | .connError =>
      { status := "error",
        message := "Connection error - unable to reach Ayrshare API",
        post_id := none }
  | .missingSchema =>
      { status := "error", message := "Network error: missing schema",
        post_id := none }
  | .reqExc m =>
      { status := "error", message := "Network error: " ++ m, post_id := none }
  | .jsonDecode =>
      { status := "error", message := "Network error: JSON decode error",
        post_id := none }
  | e =>
      { status := "error", message := "Unexpected error: " ++ toString (repr e),
        post_id := none }

/-- `AyrshareInstagramPublisher._run`: the `try:` body with every
exception converted to a returned error record. -/
def ayrshareRun (i : AyrInput) (w : NetOutcome) : AyrResult × List Call :=
  match ayrshareRunE i w with
  | (.ok r, cs) => (r, cs)
  | (.error e, cs) => (ayrshareHandle e, cs)

/-- Full invocation pipeline: pydantic schema validation, then `_run`. -/
def ayrshareInvoke (r : AyrRaw) (w : NetOutcome) :
    Invoked AyrResult × List Call :=
  match ayrshareValidate r with
  | .error e => (.schemaError e, [])
  | .ok i =>
      let (res, cs) := ayrshareRun i w
      (.output res, cs)

/-! ## Zapier webhook adapter (`zapier_instagram_webhook.py`) -/

/-- Raw caller-supplied fields of `ZapierInstagramWebhookInput`
(`content`, `preferred_posting_time`, `timezone` are required). -/
structure ZapRaw where
  content : Option String
  media_urls : Option (List String)
  preferred_posting_time : Option String
  timezone : Option String
  hashtags : Option (List String)
  brand_name : Option String
deriving Repr

/-- A schema-validated Zapier webhook input. -/
structure ZapInput where
  content : String
  media_urls : Option (List String)
  preferred_posting_time : String
  timezone : String
  hashtags : Option (List String)
  brand_name : Option String
deriving Repr

/-- Pydantic schema of the Zapier tool: the three required fields must be
present; no further validators. -/
def zapierValidate (r : ZapRaw) : Except String ZapInput :=
  match r.content, r.preferred_posting_time, r.timezone with
  | some c, some p, some tz =>
      .ok ⟨c, r.media_urls, p, tz, r.hashtags, r.brand_name⟩
  | none, _, _ => .error "field required: content"
  | _, none, _ => .error "field required: preferred_posting_time"
  | _, _, none => .error "field required: timezone"

/-- The hashtag normalization of the Zapier tool:
`f"#{tag.lstrip('#')}"` — one `'#'` prepended to the tag with all its
leading `'#'` characters stripped. -/
def zapierNormTag (t : String) : String :=
  String.mk ('#' :: t.data.dropWhile (· == '#'))

/-- The `full_content` the Zapier tool builds: the caption, then — when
the formatted hashtag list is nonempty — a single space and the
space-joined normalized hashtags (no presence check, no new paragraph). -/
def zapierFullContent (content : String) (hashtags : Option (List String)) :
    String :=
  let formatted :=
    match hashtags with
    | none => []
    | some ts => ts.map zapierNormTag
  if formatted.isEmpty then content
  else content ++ " " ++ " ".intercalate formatted

/-- Outcome marker at the head of the returned status string. -/
inductive ZapMarker where
  | success
  | failure
  | warning
deriving Repr, DecidableEq

/-- Which return-branch of `ZapierInstagramWebhookTool._run` produced the
status string. -/
inductive ZapBranch where
  | okJson
  | okText
  | badRequest
  | unauthorized
  | notFound
  | serverError
  | unexpectedStatus
  | connectionFailure
  | timeoutFailure
  | requestError
  | unexpected
deriving Repr, DecidableEq

/-- Abstraction of the multi-line status string the Zapier tool returns:
its outcome marker and the branch that produced it. -/
structure ZapResult where
  marker : ZapMarker
  branch : ZapBranch
deriving Repr, DecidableEq

/-- The webhook target URL the tool ships with (`webhook_url = ""`). -/
def zapierWebhookUrl : String := ""

/-- The status-code dispatch of the Zapier `_run` on a received
response: 200 (JSON success or, when `json.JSONDecodeError` is caught
locally, the text variant), 400, 401, 404, 5xx, and an `else` branch
producing the warning-marked "Unexpected response" string — there is no
429 branch. -/
def zapierRespond (resp : HttpResponse) : ZapResult :=
  if resp.status = 200 then
    match resp.body with
    | some _ => ⟨.success, .okJson⟩
    | none => ⟨.success, .okText⟩
  else if resp.status = 400 then ⟨.failure, .badRequest⟩
  else if resp.status = 401 then ⟨.failure, .unauthorized⟩
  else if resp.status = 404 then ⟨.failure, .notFound⟩
  else if resp.status ≥ 500 then ⟨.failure, .serverError⟩
  else ⟨.warning, .unexpectedStatus⟩

/-- Body of the Zapier `_run` `try:` block: hashtag formatting, payload
construction, the single `requests.post` to the configured webhook URL,
then the status dispatch. -/
def zapierRunE (_i : ZapInput) (w : NetOutcome) :
    Except PyErr ZapResult × List Call :=
  match requestsSend .zapierPost zapierWebhookUrl w with
  | (.error e, cs) => (.error e, cs)
  | (.ok resp, cs) => (.ok (zapierRespond resp), cs)

/-- The `except` clauses of the Zapier `_run`: `ConnectionError`,
`Timeout`, `RequestException`, then a catch-all `except Exception`. -/
def zapierHandle : PyErr → ZapResult
  | .connError => ⟨.failure, .connectionFailure⟩
  | .timeout => ⟨.failure, .timeoutFailure⟩
  | .missingSchema => ⟨.failure, .requestError⟩
  | .reqExc _ => ⟨.failure, .requestError⟩
  | .jsonDecode => ⟨.failure, .requestError⟩
  | _ => ⟨.failure, .unexpected⟩

/-- `ZapierInstagramWebhookTool._run`. -/
def zapierRun (i : ZapInput) (w : NetOutcome) : ZapResult × List Call :=
  match zapierRunE i w with
  | (.ok r, cs) => (r, cs)
  | (.error e, cs) => (zapierHandle e, cs)

/-- Full invocation pipeline of the Zapier tool. -/
def zapierInvoke (r : ZapRaw) (w : NetOutcome) :
    Invoked ZapResult × List Call :=
  match zapierValidate r with
  | .error e => (.schemaError e, [])
  | .ok i =>
      let (res, cs) := zapierRun i w
      (.output res, cs)

/-! ## Late.io content formatting (`late_instagram_tool.py`,
`_format_content`) -/

/-- The mention-appending loop of `LateInstagramTool._format_content`:
each `@mention` token is appended (space-separated) when not already a
substring of the text built so far. -/
def lateAddMentions (content : String) (mentions : List String) : String :=
  mentions.foldl
    (fun acc m =>
      let tag := "@" ++ m
      if strContains acc tag then acc else acc ++ " " ++ tag)
    content

/-- The hashtag-collecting loop of `_format_content`: `#tag` tokens not
already a substring of `base` (the caption after mention handling) are
collected in order.  Note: the token is `"#" ++ tag` with no stripping of
a `#` the caller already wrote. -/
def lateCollectHashtags (base : String) (hashtags : List String) :
    List String :=
  hashtags.foldl
    (fun acc t =>
      let h := "#" ++ t
      if strContains base h then acc else acc ++ [h])
    []

/-- `LateInstagramTool._format_content`: strip the caption, append absent
mentions, then append the absent hashtags as one space-joined group on a
new paragraph (`"\n\n"`). -/
def lateFormatContent (content : String) (hashtags mentions : Option (List String)) :
    String :=
  let c := pyStrip content
  let withMentions :=
    match mentions with
    | none => c
    | some ms => lateAddMentions c ms
  match hashtags with
  | none => withMentions
  | some hs =>
      let hl := lateCollectHashtags withMentions hs
      if hl.isEmpty then withMentions
      else withMentions ++ "\n\n" ++ " ".intercalate hl

/-! ## Buffer adapter (`buffer_instagram_tool.py`) -/

/-- Raw caller-supplied fields of `BufferInstagramToolInput`
(`profile_id` and `text` required; `top` defaults to `False`). -/
structure BufRaw where
  profile_id : Option String
  text : Option String
  media : Option String
  scheduled_at : Option Int
  top : Bool := false
deriving Repr

/-- A schema-validated Buffer input. -/
structure BufInput where
  profile_id : String
  text : String
  media : Option String
  scheduled_at : Option Int
  top : Bool := false
deriving Repr

/-- Pydantic schema of the Buffer tool: the two required fields must be
present; no further validators. -/
def bufferValidate (r : BufRaw) : Except String BufInput :=
  match r.profile_id, r.text with
  | some p, some t => .ok ⟨p, t, r.media, r.scheduled_at, r.top⟩
  | none, _ => .error "field required: profile_id"
  | _, none => .error "field required: text"

/-- The result record `BufferInstagramTool._run` serializes: one
constructor per `json.dumps` literal in the source. -/
inductive BufResult where
  | missingApiKey
  | missingParams
  | profileNotInstagram
  | profileNotFound
  | profileFetchFailed (status : Nat)
  | profileVerifyError
  | mediaNotAccessible (status : Nat)
  | mediaNotImage (contentType : String)
  | mediaRequestError
  | scheduledInPast (current provided : Int)
  | createdOk (buffer_id : Option Json) (posted : Bool)
  | unexpectedFormat
  | rateLimited
  | apiError (status : Nat)
  | networkError
  | unexpectedError
deriving Repr

/-- The `"success"` field of the serialized Buffer result. -/
def BufResult.successFlag : BufResult → Bool
  | .createdOk _ _ => true
  | _ => false

/-- The `"error"` message string of the non-success Buffer records (the
literals of the source; parameterized parts interpolated). -/
def BufResult.errorMsg : BufResult → String
  | .missingApiKey => "BUFFER_API_KEY environment variable is required"
  | .missingParams => "profile_id and text are required parameters"
  | .profileNotInstagram => "Profile is not an Instagram profile"
  | .profileNotFound => "Profile ID not found"
  | .profileFetchFailed s => "Failed to fetch profiles: " ++ toString s
  | .profileVerifyError => "Error verifying profile"
  | .mediaNotAccessible s => "Media URL is not accessible: " ++ toString s
  | .mediaNotImage ct =>
      "URL does not appear to be an image. Content-Type: " ++ ct
  | .mediaRequestError => "Cannot access media URL"
  | .scheduledInPast now t =>
      "Scheduled time must be in the future. Current time: " ++ toString now ++
        ", Provided: " ++ toString t
  | .createdOk _ _ => ""
  | .unexpectedFormat => "Unexpected response format from Buffer API"
  | .rateLimited => "Rate limit exceeded. Buffer allows 10 requests per minute."
  | .apiError s => "Buffer API error: " ++ toString s
  | .networkError => "Network error connecting to Buffer API"
  | .unexpectedError => "Unexpected error"

def bufferProfilesUrl : String := "https://api.bufferapp.com/1/profiles.json"

def bufferPostUrl : String := "https://api.bufferapp.com/1/updates/create.json"

/-- The world a Buffer invocation runs in: the `BUFFER_API_KEY`
environment variable, the clock, and the outcome of each potential
call. -/
structure BufWorld where
  apiKeyEnv : Option String
  now : Int
  profileCall : NetOutcome
  headCall : NetOutcome
  postCall : NetOutcome

/-- Result of `BufferInstagramTool._verify_profile`. -/
inductive VerifyOut where
  | verified
  | notInstagram
  | notFound
  | fetchFailed (status : Nat)
  | verifyError
deriving Repr, DecidableEq

/-- The profile-matching loop of `_verify_profile`
(`profile.get("id") == profile_id`, first match wins); iterating a
non-dict element raises `AttributeError` at `.get`. -/
def bufferFindProfile (pid : String) : List Json → Except PyErr (Option Json)
  | [] => .ok none
  | p :: rest => do
      let idv ← p.dictGet "id"
      if (match idv with | some v => v == Json.str pid | none => false) then
        pure (some p)
      else
        bufferFindProfile pid rest

/-- `BufferInstagramTool._verify_profile`: fetch `/1/profiles.json`,
find the profile, check its `service` is `"instagram"`.  Everything the
body raises is caught by its own `except Exception` and reported as a
verification error. -/
def bufferVerifyProfile (pid : String) (o : NetOutcome) :
    VerifyOut × List Call :=
  match requestsSend .bufferProfile bufferProfilesUrl o with
  | (.error _, cs) => (.verifyError, cs)
  | (.ok resp, cs) =>
      (if resp.status = 200 then
        match resp.body with
        | none => .verifyError
        | some (.arr ps) =>
            (match bufferFindProfile pid ps with
             | .error _ => .verifyError
             | .ok none => .notFound
             | .ok (some p) =>
                 match p.dictGet "service" with
                 | .ok (some (Json.str "instagram")) => .verified
                 | .ok _ => .notInstagram
                 | .error _ => .verifyError)
        | some (.obj []) => .notFound
        | some (.str "") => .notFound
        | some _ => .verifyError
      else
        match resp.body with
        | none =>
            if resp.text == "" then .fetchFailed resp.status else .verifyError
        | some _ => .fetchFailed resp.status, cs)

/-- Result of `BufferInstagramTool._validate_media_url`. -/
inductive MediaOut where
  | mediaOk
  | notAccessible (status : Nat)
  | notImage (contentType : String)
  | requestFailed
deriving Repr, DecidableEq

/-- `BufferInstagramTool._validate_media_url`: a `HEAD` request to the
media URL; any `RequestException` (including the pre-network
`MissingSchema`/`InvalidSchema` for a non-http(s) URL) is caught and
reported; a 200 must carry an `image/` content type when one is
present. -/
def bufferValidateMedia (m : String) (o : NetOutcome) :
    MediaOut × List Call :=
  match requestsSend .bufferHead m o with
  | (.error _, cs) => (.requestFailed, cs)
  | (.ok r, cs) =>
      (if r.status ≠ 200 then .notAccessible r.status
       else
         let ct := pyLower r.contentType
         if ct != "" && !(strStartsWith ct "image/") then .notImage ct
         else .mediaOk, cs)

/-- The 200-branch of the Buffer `_run`: require a nonempty `updates`
list, read the first update's `id` and `posted_at`. -/
def bufferHandle200 (j : Json) : Except PyErr BufResult := do
  let hasUpd ← j.hasKey "updates"
  if hasUpd then
    let upds ← j.item "updates"
    let n ← upds.pyLen
    if n > 0 then
      let update ← upds.pyIndexZero
      let idv ← update.dictGet "id"
      let hasPosted ← update.hasKey "posted_at"
      let posted ←
        if hasPosted then do
          let pv ← update.item "posted_at"
          pure pv.pyTruthy
        else
          pure false
      pure (.createdOk idv posted)
    else
      pure .unexpectedFormat
  else
    pure .unexpectedFormat

/-- The posting call of the Buffer `_run` and its status dispatch. -/
def bufferDoPost (w : BufWorld) (cs : List Call) :
    Except PyErr BufResult × List Call :=
  match requestsSend .bufferPost bufferPostUrl w.postCall with
  | (.error e, cs2) => (.error e, cs ++ cs2)
  | (.ok resp, cs2) =>
      (if resp.status = 200 then
        match resp.body with
        | none => .error .jsonDecode
        | some j => bufferHandle200 j
      else if resp.status = 429 then .ok .rateLimited
      else
        match resp.body with
        | none =>
            if resp.text == "" then .ok (.apiError resp.status)
            else .error .jsonDecode
        | some (.obj _) => .ok (.apiError resp.status)
        | some _ => .error .attributeError, cs ++ cs2)

/-- The scheduling step of the Buffer `_run`: a truthy `scheduled_at`
(present and nonzero) must be strictly in the future; a zero timestamp is
falsy and silently treated as immediate posting. -/
def bufferAfterMedia (i : BufInput) (w : BufWorld) (cs : List Call) :
    Except PyErr BufResult × List Call :=
  match i.scheduled_at with
  | some t =>
      if t ≠ 0 then
        if t ≤ w.now then (.ok (.scheduledInPast w.now t), cs)
        else bufferDoPost w cs
      else bufferDoPost w cs
  | none => bufferDoPost w cs

/-- Body of the Buffer `_run` `try:` block. -/
def bufferRunE (i : BufInput) (w : BufWorld) :
    Except PyErr BufResult × List Call :=
  if !(pyTruthyOptStr w.apiKeyEnv) then (.ok .missingApiKey, [])
  else if i.profile_id == "" || i.text == "" then (.ok .missingParams, [])
  else
    match bufferVerifyProfile i.profile_id w.profileCall with
    | (.verified, cs1) =>
        if pyTruthyOptStr i.media then
          match bufferValidateMedia (i.media.getD "") w.headCall with
          | (.mediaOk, cs2) => bufferAfterMedia i w (cs1 ++ cs2)
          | (.notAccessible s, cs2) => (.ok (.mediaNotAccessible s), cs1 ++ cs2)
          | (.notImage ct, cs2) => (.ok (.mediaNotImage ct), cs1 ++ cs2)
          | (.requestFailed, cs2) => (.ok .mediaRequestError, cs1 ++ cs2)
        else
          bufferAfterMedia i w cs1
    | (.notInstagram, cs1) => (.ok .profileNotInstagram, cs1)
    | (.notFound, cs1) => (.ok .profileNotFound, cs1)
    | (.fetchFailed s, cs1) => (.ok (.profileFetchFailed s), cs1)
    | (.verifyError, cs1) => (.ok .profileVerifyError, cs1)

/-- The `except` clauses of the Buffer `_run`: `RequestException`, then a
catch-all `except Exception`. -/
def bufferHandle (e : PyErr) : BufResult :=
  if e.isRequestException then .networkError else .unexpectedError

/-- `BufferInstagramTool._run`. -/
def bufferRun (i : BufInput) (w : BufWorld) : BufResult × List Call :=
  match bufferRunE i w with
  | (.ok r, cs) => (r, cs)
  | (.error e, cs) => (bufferHandle e, cs)

/-- Full invocation pipeline of the Buffer tool. -/
def bufferInvoke (r : BufRaw) (w : BufWorld) :
    Invoked BufResult × List Call :=
  match bufferValidate r with
  | .error e => (.schemaError e, [])
  | .ok i =>
      let (res, cs) := bufferRun i w
      (.output res, cs)

/-! ## Instagram Graph API adapter (`instagram_posting_tool.py`) -/

/-- A schedule string as received by an adapter, together with what
`datetime.fromisoformat` makes of it: the empty string (falsy, treated as
no schedule), a nonempty string the parser rejects, a nonempty
offset-aware string (`Z` suffix or explicit offset) denoting the unix
instant `t`, or a nonempty offset-naive string (no `Z`, no offset) whose
`datetime.timestamp()` local-time interpretation denotes the unix instant
`t`.  The distinction matters: comparing a naive datetime with
`datetime.now(timezone.utc)` raises `TypeError`, while `timestamp()` on a
naive datetime succeeds. -/
inductive ScheduleSpec where
  | emptyStr
  | malformed (s : String)
  | instant (t : Int)
  | naiveInstant (t : Int)
deriving Repr, DecidableEq

/-- Raw caller-supplied fields of `InstagramPostingToolInput`
(`post_type`, `caption`, `access_token` required). -/
structure IGRaw where
  post_type : Option String
  caption : Option String
  access_token : Option String
  image_url : Option String
  schedule_time : Option ScheduleSpec
deriving Repr

/-- A schema-validated Instagram Graph input. -/
structure IGInput where
  post_type : String
  caption : String
  access_token : String
  image_url : Option String
  schedule_time : Option ScheduleSpec
deriving Repr

/-- Pydantic schema of the Instagram Graph tool: the three required
fields must be present; no further validators. -/
def igValidate (r : IGRaw) : Except String IGInput :=
  match r.post_type, r.caption, r.access_token with
  | some p, some c, some a =>
      .ok ⟨p, c, a, r.image_url, r.schedule_time⟩
  | none, _, _ => .error "field required: post_type"
  | _, none, _ => .error "field required: caption"
  | _, _, none => .error "field required: access_token"

/-- The result record `InstagramPostingTool._run` serializes: one
constructor per `json.dumps`/returned-dict literal in the source. -/
inductive IGResult where
  | invalidPostType
  | missingImageUrl
  | invalidScheduleTime
  | scheduleTooFar
  | invalidDatetimeFormat
  | rateLimited
  | acctApiError (status : Nat)
  | noIgAccount
  | acctTimeout
  | acctError
  | textPostsNotSupported
  | invalidImageUrl
  | containerCreationError (status : Nat)
  | noContainerId
  | containerTimeout
  | containerError
  | publishError (status : Nat)
  | publishTimeout
  | publishMediaError
  | published (media_id : Option Json) (scheduledFor : Option Int)
  | networkError
  | unexpectedError
deriving Repr

/-- The `"success"` field of the serialized Instagram Graph result. -/
def IGResult.successFlag : IGResult → Bool
  | .published _ _ => true
  | _ => false

/-- The `"error"` message of the non-success Instagram Graph records. -/
def IGResult.errorMsg : IGResult → String
  | .invalidPostType => "Invalid post_type. Must be 'text' or 'image'"
  | .missingImageUrl => "image_url is required for image posts"
  | .invalidScheduleTime => "Scheduled time must be in the future"
  | .scheduleTooFar => "Cannot schedule posts more than 75 days in advance"
  | .invalidDatetimeFormat => "Invalid schedule_time format."
  | .rateLimited => "API rate limit exceeded. Please wait before trying again."
  | .acctApiError _ => "Failed to get account info"
  | .noIgAccount => "No Instagram Business Account found. Make sure your Instagram account is connected to a Facebook Page and is a Business account."
  | .acctTimeout => "Request timed out while getting account info"
  | .acctError => "Error getting account info"
  | .textPostsNotSupported => "Instagram Graph API does not support text-only posts. Please use an image with your caption or consider using Instagram's native posting features."
  | .invalidImageUrl => "The provided image URL is invalid or inaccessible. Please check the URL and ensure the image is publicly accessible."
  | .containerCreationError _ => "Failed to create media container"
  | .noContainerId => "No container ID returned from API"
  | .containerTimeout => "Request timed out while creating media container"
  | .containerError => "Error creating media container"
  | .publishError _ => "Failed to publish media"
  | .publishTimeout => "Request timed out while publishing media"
  | .publishMediaError => "Error publishing media"
  | .published _ _ => ""
  | .networkError => "Network error occurred"
  | .unexpectedError => "Unexpected error occurred"

def igMeUrl : String := "https://graph.facebook.com/v18.0/me"

def igContainerUrl : String :=
  "https://graph.facebook.com/v18.0/ACCOUNT/media"

def igPublishUrl : String :=
  "https://graph.facebook.com/v18.0/ACCOUNT/media_publish"

/-- The world an Instagram Graph invocation runs in. -/
structure IGWorld where
  now : Int
  acctCall : NetOutcome
  containerCall : NetOutcome
  publishCall : NetOutcome

/-- The schedule validation of the Instagram Graph `_run` (before any
HTTP call): a truthy `schedule_time` must parse, lie strictly in the
future, and be at most 75 days ahead.  A naive string is unproblematic
here: the code takes `int(dt.timestamp())` (which accepts naive
datetimes, interpreting them in local time) and compares plain numbers,
so a naive instant behaves like an aware one at its denoted timestamp. -/
def igValidateSchedule : Option ScheduleSpec → Int → IGResult ⊕ Option Int
  | none, _ => .inr none
  | some .emptyStr, _ => .inr none
  | some (.malformed _), _ => .inl .invalidDatetimeFormat
  | some (.instant t), now =>
      if t ≤ now then .inl .invalidScheduleTime
      else if t > now + 75 * 24 * 60 * 60 then .inl .scheduleTooFar
      else .inr (some t)
  | some (.naiveInstant t), now =>
      if t ≤ now then .inl .invalidScheduleTime
      else if t > now + 75 * 24 * 60 * 60 then .inl .scheduleTooFar
      else .inr (some t)

/-- `error_data.get('error', {}).get('message', ...)` of the helpers'
non-200 branches: parsed only when the content type is JSON; a parse
failure raises. -/
def igParsedError (resp : HttpResponse) : Except PyErr (Option Json) :=
  if strStartsWith resp.contentType "application/json" then
    match resp.body with
    | none => .error .jsonDecode
    | some j => do
        let e ← j.dictGet "error"
        (e.getD (Json.obj [])).dictGet "message"
  else
    .ok none

/-- The account-scanning loop of `_get_instagram_account_info`
(`"instagram_business_account" in account`, then two subscripts). -/
def igFindAcct : List Json → Except PyErr (Option Json)
  | [] => .ok none
  | a :: rest => do
      let has ← a.hasKey "instagram_business_account"
      if has then do
        let iba ← a.item "instagram_business_account"
        let idv ← iba.item "id"
        pure (some idv)
      else
        igFindAcct rest

/-- `data.get("accounts", {}).get("data", [])` and the scan over it.
Iterating a dict yields its keys and a str its characters; the membership
test then only binds for a key containing the long field name, in which
case the subscript raises `TypeError`; non-iterables raise at `for`. -/
def igExtractAccount (j : Json) : Except PyErr (Option Json) := do
  let accounts ← j.dictGet "accounts"
  let dataField ← (accounts.getD (Json.obj [])).dictGet "data"
  match dataField.getD (Json.arr []) with
  | .arr accts => igFindAcct accts
  | .obj fs =>
      if fs.any (fun kv => strContains kv.1 "instagram_business_account") then
        .error .typeError
      else
        .ok none
  | .str _ => .ok none
  | _ => .error .typeError

/-- `InstagramPostingTool._get_instagram_account_info`: `GET /me`, then
extract the Instagram Business Account id.  Its own `except Timeout` and
`except Exception` clauses make it total. -/
def igGetAccountInfo (o : NetOutcome) : (IGResult ⊕ Json) × List Call :=
  match requestsSend .igAccount igMeUrl o with
  | (.error .timeout, cs) => (.inl .acctTimeout, cs)
  | (.error _, cs) => (.inl .acctError, cs)
  | (.ok resp, cs) =>
      (if resp.status = 429 then .inl .rateLimited
       else if resp.status ≠ 200 then
         match igParsedError resp with
         | .error _ => .inl .acctError
         | .ok _ => .inl (.acctApiError resp.status)
       else
         match resp.body with
         | none => .inl .acctError
         | some j =>
             match igExtractAccount j with
             | .error .timeout => .inl .acctTimeout
             | .error _ => .inl .acctError
             | .ok none => .inl .noIgAccount
             | .ok (some idj) => .inr idj, cs)

/-- `InstagramPostingTool._create_media_container`: returns the
text-post refusal before any request for `post_type == "text"`;
otherwise `POST .../media` and extract the container id (a falsy id is
reported as missing). -/
def igCreateContainer (post_type : String) (o : NetOutcome) :
    (IGResult ⊕ Json) × List Call :=
  if post_type != "image" then (.inl .textPostsNotSupported, [])
  else
    match requestsSend .igContainer igContainerUrl o with
    | (.error .timeout, cs) => (.inl .containerTimeout, cs)
    | (.error _, cs) => (.inl .containerError, cs)
    | (.ok resp, cs) =>
        (if resp.status = 429 then .inl .rateLimited
         else if resp.status ≠ 200 then
           -- `"Invalid image URL" in error_message`: Python `in` on the
           -- extracted message value (default `'Unknown error'`), which is
           -- substring on strings, membership on lists, key membership on
           -- dicts, and a `TypeError` on anything else.
           match igParsedError resp with
           | .error _ => .inl .containerError
           | .ok m =>
               match (m.getD (Json.str "Unknown error")).hasKey
                   "Invalid image URL" with
               | .error _ => .inl .containerError
               | .ok true => .inl .invalidImageUrl
               | .ok false => .inl (.containerCreationError resp.status)
         else
           match resp.body with
           | none => .inl .containerError
           | some j =>
               match j.dictGet "id" with
               | .error _ => .inl .containerError
               | .ok none => .inl .noContainerId
               | .ok (some cid) =>
                   if cid.pyTruthy then .inr cid else .inl .noContainerId, cs)

/-- `InstagramPostingTool._publish_media`: `POST .../media_publish` and
read the published media id. -/
def igPublishMedia (schedFor : Option Int) (o : NetOutcome) :
    IGResult × List Call :=
  match requestsSend .igPublish igPublishUrl o with
  | (.error .timeout, cs) => (.publishTimeout, cs)
  | (.error _, cs) => (.publishMediaError, cs)
  | (.ok resp, cs) =>
      (if resp.status = 429 then .rateLimited
       else if resp.status ≠ 200 then
         match igParsedError resp with
         | .error _ => .publishMediaError
         | .ok _ => .publishError resp.status
       else
         match resp.body with
         | none => .publishMediaError
         | some j =>
             match j.dictGet "id" with
             | .error _ => .publishMediaError
             | .ok idv => .published idv schedFor, cs)

/-- `InstagramPostingTool._run`: input checks, schedule validation,
account lookup, container creation, publish.  The helpers are already
total, so the top-level `except` clauses are never reached. -/
def igRun (i : IGInput) (w : IGWorld) : IGResult × List Call :=
  if i.post_type != "text" && i.post_type != "image" then
    (.invalidPostType, [])
  else if i.post_type == "image" && !(pyTruthyOptStr i.image_url) then
    (.missingImageUrl, [])
  else
    match igValidateSchedule i.schedule_time w.now with
    | .inl r => (r, [])
    | .inr schedFor =>
        match igGetAccountInfo w.acctCall with
        | (.inl r, cs) => (r, cs)
        | (.inr _acctId, cs) =>
            match igCreateContainer i.post_type w.containerCall with
            | (.inl r, cs2) => (r, cs ++ cs2)
            | (.inr _cid, cs2) =>
                let (r, cs3) := igPublishMedia schedFor w.publishCall
                (r, cs ++ cs2 ++ cs3)

/-- Full invocation pipeline of the Instagram Graph tool. -/
def igInvoke (r : IGRaw) (w : IGWorld) : Invoked IGResult × List Call :=
  match igValidate r with
  | .error e => (.schemaError e, [])
  | .ok i =>
      let (res, cs) := igRun i w
      (.output res, cs)

/-! ## Late.io adapter (`late_instagram_tool.py`) -/

/-- Raw caller-supplied fields of `LateInstagramRequest` (`content`
required; `post_type` defaults to `"feed"`). -/
structure LateRaw where
  account_id : Option String
  content : Option String
  media_urls : Option (List String)
  schedule_time : Option ScheduleSpec
  post_type : String := "feed"
  hashtags : Option (List String)
  mentions : Option (List String)
deriving Repr

/-- A schema-validated Late input. -/
structure LateInput where
  account_id : Option String
  content : String
  media_urls : Option (List String)
  schedule_time : Option ScheduleSpec
  post_type : String := "feed"
  hashtags : Option (List String)
  mentions : Option (List String)
deriving Repr

/-- Pydantic schema of the Late tool: `content` must be present; no
further validators. -/
def lateValidate (r : LateRaw) : Except String LateInput :=
  match r.content with
  | some c =>
      .ok ⟨r.account_id, c, r.media_urls, r.schedule_time, r.post_type,
           r.hashtags, r.mentions⟩
  | none => .error "field required: content"

/-- The result record `LateInstagramTool._run` serializes: one
constructor per returned-dict literal in the source. -/
inductive LateResult where
  | envMissingKey
  | envKeyTooShort
  | noAccountId
  | invalidPostType
  | emptyContent
  | contentTooLong (len : Nat)
  | tooManyMedia (count : Nat)
  | scheduleInPast
  | scheduleTooFarAway
  | scheduleInvalidFormat
  | authFailed
  | forbidden
  | rateLimited
  | apiError (status : Nat)
  | timeoutFailure
  | connectionFailure
  | requestUnexpected
  | posted (post_id : Json) (scheduled : Bool)
  | toolUnexpected
deriving Repr

/-- The `"success"` field of the serialized Late result. -/
def LateResult.successFlag : LateResult → Bool
  | .posted _ _ => true
  | _ => false

/-- The `"error_message"` of the non-success Late records. -/
def LateResult.errorMsg : LateResult → String
  | .envMissingKey => "LATE_API_KEY environment variable is not set or empty. Please set your Late API key."
  | .envKeyTooShort => "LATE_API_KEY appears to be invalid (too short). Please check your API key."
  | .noAccountId => "No account ID provided. Set LATE_ACCOUNT_ID environment variable or provide account_id parameter."
  | .invalidPostType => "Invalid post_type. Must be 'feed', 'story', or 'reel'."
  | .emptyContent => "Content cannot be empty. Please provide caption text for your post."
  | .contentTooLong n =>
      "Content is too long (" ++ toString n ++
        " characters). Instagram captions should be under 2200 characters."
  | .tooManyMedia n =>
      "Too many media URLs (" ++ toString n ++
        "). Instagram allows maximum 10 images per post."
  | .scheduleInPast => "Schedule time must be in the future."
  | .scheduleTooFarAway => "Schedule time is too far in the future (max 365 days)"
  | .scheduleInvalidFormat => "Invalid schedule time format"
  | .authFailed => "Authentication failed. Your API key may be invalid or expired."
  | .forbidden => "Access forbidden. Your account may not have permission for this action."
  | .rateLimited => "Rate limit exceeded. Too many requests made recently."
  | .apiError s => "API Error (status " ++ toString s ++ ")"
  | .timeoutFailure => "Request timed out. Late.io API may be slow or unreachable."
  | .connectionFailure => "Connection error. Cannot reach Late.io API."
  | .requestUnexpected => "Unexpected error"
  | .posted _ _ => ""
  | .toolUnexpected => "Unexpected error in tool execution"

def latePostUrl : String := "https://api.getlate.io/v1/posts"

/-- The world a Late invocation runs in: `LATE_API_KEY`,
`LATE_ACCOUNT_ID`, the clock, and the posting call's outcome. -/
structure LateWorld where
  apiKeyEnv : Option String
  accountIdEnv : Option String
  now : Int
  postCall : NetOutcome

/-- `LateInstagramTool._check_environment_variables`: a missing or empty
`LATE_API_KEY` is rejected, as is one whose stripped length is below
10. -/
def lateCheckEnv (w : LateWorld) : LateResult ⊕ (String × Option String) :=
  match w.apiKeyEnv with
  | none => .inl .envMissingKey
  | some k =>
      if k == "" then .inl .envMissingKey
      else if (pyStrip k).length < 10 then .inl .envKeyTooShort
      else .inr (k, w.accountIdEnv)

/-- `LateInstagramTool._validate_inputs`: post type enum, nonempty
caption, 2200-character cap, at most 10 media URLs.  Note: media URLs are
only counted, never inspected — no scheme check. -/
def lateValidateInputs (post_type content : String)
    (media_urls : Option (List String)) : Option LateResult :=
  if post_type != "feed" && post_type != "story" && post_type != "reel" then
    some .invalidPostType
  else if content == "" || pyStrip content == "" then
    some .emptyContent
  else if content.length > 2200 then
    some (.contentTooLong content.length)
  else
    match media_urls with
    | some us => if us.length > 10 then some (.tooManyMedia us.length) else none
    | none => none

/-- `LateInstagramTool._validate_schedule_time`: a falsy schedule means
immediate posting; otherwise the instant must parse, lie strictly in the
future, and be at most 365 days ahead (`timedelta.days`, i.e. the
seconds-difference floor-divided by 86400).  A `Z`-suffixed string is
converted to `+00:00`, so only strings with a `Z` or an explicit offset
yield an aware `dt`; for an offset-naive string the comparison
`dt <= datetime.now(timezone.utc)` raises `TypeError`, which the local
`except ValueError` does not catch — it propagates to `_run`'s top-level
`except Exception`. -/
def lateValidateSchedule : Option ScheduleSpec → Int →
    Except PyErr (LateResult ⊕ Option Int)
  | none, _ => .ok (.inr none)
  | some .emptyStr, _ => .ok (.inr none)
  | some (.malformed _), _ => .ok (.inl .scheduleInvalidFormat)
  | some (.naiveInstant _), _ => .error .typeError
  | some (.instant t), now =>
      if t ≤ now then .ok (.inl .scheduleInPast)
      else if (t - now) / 86400 > 365 then .ok (.inl .scheduleTooFarAway)
      else .ok (.inr (some t))

/-- `LateInstagramTool._make_api_request`: its own `except` clauses
absorb the transport errors (`Timeout`, `ConnectionError`, any other
exception), and a received response is dispatched on 401, 403, 429,
`>= 400`, else success — whose parsed body is `{}` for an empty text, the
parsed JSON, or a `raw_response` wrapper when the JSON decode fails. -/
def lateRespond (r : Except PyErr HttpResponse) : LateResult ⊕ Json :=
  match r with
  | .error .timeout => .inl .timeoutFailure
  | .error .connError => .inl .connectionFailure
  | .error _ => .inl .requestUnexpected
  | .ok resp =>
      if resp.status = 401 then .inl .authFailed
      else if resp.status = 403 then .inl .forbidden
      else if resp.status = 429 then .inl .rateLimited
      else if resp.status ≥ 400 then .inl (.apiError resp.status)
      else
        if resp.text == "" then .inr (Json.obj [])
        else
          match resp.body with
          | some j => .inr j
          | none => .inr (Json.obj [("raw_response", Json.str resp.text)])

/-- Body of the Late `_run` `try:` block: environment check, account-id
resolution (`account_id or default`, both under Python truthiness),
input validation, schedule validation, content formatting, the single
`POST /v1/posts` through `_make_api_request` (whose own `except` clauses
absorb transport errors), and the success-path `response_data.get("id",
"unknown")` — which raises on a non-dict body and is then caught by the
top-level `except Exception`. -/
def lateRunE (i : LateInput) (w : LateWorld) :
    Except PyErr LateResult × List Call :=
  match lateCheckEnv w with
  | .inl r => (.ok r, [])
  | .inr (_apiKey, defaultAcct) =>
      let finalAcct := if pyTruthyOptStr i.account_id then i.account_id
                       else defaultAcct
      if !(pyTruthyOptStr finalAcct) then (.ok .noAccountId, [])
      else
        match lateValidateInputs i.post_type i.content i.media_urls with
        | some r => (.ok r, [])
        | none =>
            match lateValidateSchedule i.schedule_time w.now with
            | .error e => (.error e, [])
            | .ok (.inl r) => (.ok r, [])
            | .ok (.inr schedFor) =>
                match requestsSend .latePost latePostUrl w.postCall with
                | (r, cs) =>
                    (match lateRespond r with
                     | .inl res => .ok res
                     | .inr data =>
                         match data with
                         | .obj fs =>
                             .ok (.posted
                                    ((fs.lookup "id").getD (Json.str "unknown"))
                                    schedFor.isSome)
                         | _ => .error .attributeError, cs)

/-- `LateInstagramTool._run`: the body with its catch-all
`except Exception`. -/
def lateRun (i : LateInput) (w : LateWorld) : LateResult × List Call :=
  match lateRunE i w with
  | (.ok r, cs) => (r, cs)
  | (.error _, cs) => (.toolUnexpected, cs)

/-- Full invocation pipeline of the Late tool. -/
def lateInvoke (r : LateRaw) (w : LateWorld) :
    Invoked LateResult × List Call :=
  match lateValidate r with
  | .error e => (.schemaError e, [])
  | .ok i =>
      let (res, cs) := lateRun i w
      (.output res, cs)

/-! ## Helper lemmas -/

theorem requestsSend_eq (tag : Call) (url : String) (o : NetOutcome)
    (h : urlDispatchable url = true) :
    requestsSend tag url o =
      (match o with
       | .timeout => .error .timeout
       | .connError => .error .connError
       | .reqExc m => .error (.reqExc m)
       | .resp r => .ok r, [tag]) := by
  unfold requestsSend
  rw [h]
  simp

theorem ayrshareApiUrl_ok : urlDispatchable ayrshareApiUrl = true := by decide

theorem bufferProfilesUrl_ok : urlDispatchable bufferProfilesUrl = true := by decide

theorem bufferPostUrl_ok : urlDispatchable bufferPostUrl = true := by decide

theorem igMeUrl_ok : urlDispatchable igMeUrl = true := by decide

theorem igContainerUrl_ok : urlDispatchable igContainerUrl = true := by decide

theorem igPublishUrl_ok : urlDispatchable igPublishUrl = true := by decide

theorem latePostUrl_ok : urlDispatchable latePostUrl = true := by decide

theorem pyTruthyOptStr_none : pyTruthyOptStr none = false := rfl

theorem pyTruthyOptStr_some (s : String) : pyTruthyOptStr (some s) = !(s == "") := by
  by_cases h : s = "" <;> simp [pyTruthyOptStr, h]

theorem bufferVerifyProfile_calls (pid : String) (o : NetOutcome) :
    (bufferVerifyProfile pid o).2 = [.bufferProfile] := by
  unfold bufferVerifyProfile
  rw [requestsSend_eq _ _ _ bufferProfilesUrl_ok]
  cases o <;> rfl

theorem igGetAccountInfo_calls (o : NetOutcome) :
    (igGetAccountInfo o).2 = [.igAccount] := by
  unfold igGetAccountInfo
  rw [requestsSend_eq _ _ _ igMeUrl_ok]
  cases o <;> rfl

theorem ayrRespond_ok_status (sched : Option (String × String))
    (resp : HttpResponse) (r : AyrResult)
    (h : ayrRespond sched resp = .ok r) :
    r.status = "success" ∨ r.status = "error" := by
  unfold ayrRespond at h
  split at h
  · split at h
    · simp at h
    · next x j hj =>
        cases he : ayrExtractId j <;> rw [he] at h <;>
          simp [Except.map] at h
        left
        rw [← h]
        rfl
  · split at h
    · right; simp at h; rw [← h]
    · split at h
      · right; simp at h; rw [← h]
      · split at h
        · right; simp at h; rw [← h]
        · right; simp at h; rw [← h]

theorem ayrshareHandle_status (e : PyErr) : (ayrshareHandle e).status = "error" := by
  cases e <;> rfl

theorem ayrshareRunE_ok_status (i : AyrInput) (w : NetOutcome) (r : AyrResult)
    (cs : List Call) (h : ayrshareRunE i w = (.ok r, cs)) :
    r.status = "success" ∨ r.status = "error" := by
  unfold ayrshareRunE at h
  rw [requestsSend_eq _ _ _ ayrshareApiUrl_ok] at h
  cases hb1 : pyTruthyOptStr i.schedule_date <;>
    cases hb2 : pyTruthyOptStr i.schedule_time <;>
    simp only [hb1, hb2, Bool.and_self, Bool.and_true, Bool.true_and,
      Bool.and_false, Bool.false_and, Bool.or_self, Bool.or_true,
      Bool.true_or, Bool.false_or, Bool.false_eq_true, if_false, if_true,
      ite_false, ite_true] at h
  · -- neither given: immediate post
    cases w <;> simp at h
    exact ayrRespond_ok_status _ _ _ h.1
  · -- only time: both-required record
    right; simp at h; rw [← h.1]
  · -- only date: both-required record
    right; simp at h; rw [← h.1]
  · -- both given
    cases hiso : isoCombineOk (i.schedule_date.getD "") (i.schedule_time.getD "") <;>
      simp only [hiso, Bool.false_eq_true, if_false, if_true, ite_false,
        ite_true] at h
    · right; simp at h; rw [← h.1]
    · cases w <;> simp at h
      exact ayrRespond_ok_status _ _ _ h.1

theorem ayrshareRun_status (i : AyrInput) (w : NetOutcome) :
    (ayrshareRun i w).1.status = "success" ∨
      (ayrshareRun i w).1.status = "error" := by
  unfold ayrshareRun
  rcases hE : ayrshareRunE i w with ⟨res, cs⟩
  cases res with
  | ok r => simpa using ayrshareRunE_ok_status i w r cs hE
  | error e => right; simpa using ayrshareHandle_status e

theorem zapierRespond_marker (resp : HttpResponse) :
    (zapierRespond resp).marker = .success ∨
      (zapierRespond resp).marker = .failure ∨
      (zapierRespond resp).marker = .warning := by
  unfold zapierRespond
  split
  · split <;> simp
  · split
    · simp
    · split
      · simp
      · split
        · simp
        · split <;> simp

/-! ## Claim C1 -/

/-- C1: every adapter invocation returns a typed result.  A schema
failure (missing or malformed caller field) is surfaced as a typed
validation error with no network call — never as a thrown fault — and a
`_run` result always carries a definite outcome: the Ayrshare status
string is always `"success"` or `"error"`, and on any hypothetically
received response the Zapier status dispatch always yields one of its
three outcome markers.  (The inductive result types of the Buffer,
Instagram Graph and Late adapters enumerate the returned records by
construction; their catch-all handlers are `bufferHandle` and the
`toolUnexpected` branch of `lateRun`.) -/
theorem c1_adapters_return_typed_results :
    (∀ (r : AyrRaw) (w : NetOutcome),
      (match ayrshareInvoke r w with
       | (.schemaError _, cs) => cs = []
       | (.output res, _) => res.status = "success" ∨ res.status = "error"))
  ∧ (∀ resp : HttpResponse,
      (zapierRespond resp).marker = .success ∨
        (zapierRespond resp).marker = .failure ∨
        (zapierRespond resp).marker = .warning)
  ∧ (∀ (r : AyrRaw) (w : NetOutcome) (e : String),
      ayrshareValidate r = .error e → ayrshareInvoke r w = (.schemaError e, []))
  ∧ (∀ (r : ZapRaw) (w : NetOutcome) (e : String),
      zapierValidate r = .error e → zapierInvoke r w = (.schemaError e, []))
  ∧ (∀ (r : BufRaw) (w : BufWorld) (e : String),
      bufferValidate r = .error e → bufferInvoke r w = (.schemaError e, []))
  ∧ (∀ (r : IGRaw) (w : IGWorld) (e : String),
      igValidate r = .error e → igInvoke r w = (.schemaError e, []))
  ∧ (∀ (r : LateRaw) (w : LateWorld) (e : String),
      lateValidate r = .error e → lateInvoke r w = (.schemaError e, [])) := by
  refine ⟨?_, zapierRespond_marker, ?_, ?_, ?_, ?_, ?_⟩
  · intro r w
    unfold ayrshareInvoke
    cases hv : ayrshareValidate r with
    | error e => simp
    | ok i =>
        rcases hR : ayrshareRun i w with ⟨res, cs⟩
        simp [hR]
        have := ayrshareRun_status i w
        rw [hR] at this
        simpa using this
  · intro r w e h; simp [ayrshareInvoke, h]
  · intro r w e h; simp [zapierInvoke, h]
  · intro r w e h; simp [bufferInvoke, h]
  · intro r w e h; simp [igInvoke, h]
  · intro r w e h; simp [lateInvoke, h]

/-- Sample worlds used by concrete instantiations. -/
def sampleNet : NetOutcome := .resp ⟨200, some (.obj []), "", ""⟩

def sampleBufWorld : BufWorld :=
  { apiKeyEnv := some "key123", now := 1000,
    profileCall := sampleNet, headCall := sampleNet, postCall := sampleNet }

def sampleIGWorld : IGWorld :=
  { now := 1000, acctCall := sampleNet, containerCall := sampleNet,
    publishCall := sampleNet }

def sampleLateWorld : LateWorld :=
  { apiKeyEnv := some "0123456789ABC", accountIdEnv := none, now := 1000,
    postCall := sampleNet }

/-- C1 witness: each adapter invoked with a missing required field at a
200-responding world returns the typed validation error with zero
dispatched calls. -/
theorem c1_witness :
    ayrshareInvoke ⟨none, none, none, none⟩ sampleNet =
      (.schemaError "field required: post_text", []) ∧
    zapierInvoke ⟨none, none, some "1:10 PM", some "EST", none, none⟩ sampleNet =
      (.schemaError "field required: content", []) ∧
    bufferInvoke ⟨none, some "caption", none, none, false⟩ sampleBufWorld =
      (.schemaError "field required: profile_id", []) ∧
    igInvoke ⟨none, some "caption", some "token", none, none⟩ sampleIGWorld =
      (.schemaError "field required: post_type", []) ∧
    lateInvoke ⟨none, none, none, none, "feed", none, none⟩ sampleLateWorld =
      (.schemaError "field required: content", []) :=
  ⟨c1_adapters_return_typed_results.2.2.1 _ _ _ rfl,
   c1_adapters_return_typed_results.2.2.2.1 _ _ _ rfl,
   c1_adapters_return_typed_results.2.2.2.2.1 _ _ _ rfl,
   c1_adapters_return_typed_results.2.2.2.2.2.1 _ _ _ rfl,
   c1_adapters_return_typed_results.2.2.2.2.2.2 _ _ _ rfl⟩

/-! ## Claim C10 -/

/-- C10: the Zapier adapter ships with `webhook_url = ""`; `requests.post`
on a schemeless URL raises `MissingSchema` (a `RequestException`) before
any network traffic, so every invocation of `_run`, for every input and
every would-be network outcome, returns the failure-marked string of the
caught request-exception branch, dispatches no HTTP call, and never
reaches a success branch. -/
theorem c10_zapier_empty_url_always_fails :
    urlDispatchable zapierWebhookUrl = false ∧
    ∀ (i : ZapInput) (w : NetOutcome),
      zapierRun i w = (⟨.failure, .requestError⟩, []) := by
  exact ⟨rfl, fun i w => rfl⟩

/-! ## Claim C9 -/

/-- C9: in the only adapter with separate schedule date and time fields
(Ayrshare), a request supplying exactly one of the two (under Python
truthiness: present and nonempty) is rejected by `_run` with the
"Both schedule_date and schedule_time must be provided for scheduling"
error, and no HTTP call is dispatched. -/
theorem c9_ayrshare_partial_schedule_pair (pt : String) (iu d t : Option String)
    (w : NetOutcome) (h : pyTruthyOptStr d ≠ pyTruthyOptStr t) :
    ayrshareRun ⟨pt, iu, d, t⟩ w =
      ({ status := "error",
         message := "Both schedule_date and schedule_time must be provided for scheduling",
         post_id := none }, []) := by
  unfold ayrshareRun ayrshareRunE
  cases hd : pyTruthyOptStr d <;> cases ht : pyTruthyOptStr t <;>
    simp_all

/-- C9 witness: a date without a time at a 200-responding world. -/
theorem c9_witness :
    ayrshareRun ⟨"hi", none, some "2020-01-01", none⟩
        (.resp ⟨200, some (.obj []), "", ""⟩) =
      ({ status := "error",
         message := "Both schedule_date and schedule_time must be provided for scheduling",
         post_id := none }, []) :=
  c9_ayrshare_partial_schedule_pair "hi" none (some "2020-01-01") none _
    (by decide)

/-! ## Claim C5 -/

/-- C5: an invocation missing a required field is rejected by the schema
with zero dispatched network calls, in every adapter; and the Buffer and
Instagram Graph adapters never attempt their posting calls when the
preceding profile / business-account lookup fails (Buffer also skips the
media HEAD check). -/
theorem c5_no_network_before_validation :
    (∀ (r : AyrRaw) (w : NetOutcome), r.post_text = none →
      ayrshareInvoke r w = (.schemaError "field required: post_text", []))
  ∧ (∀ (r : ZapRaw) (w : NetOutcome), r.content = none →
      zapierInvoke r w = (.schemaError "field required: content", []))
  ∧ (∀ (r : BufRaw) (w : BufWorld), r.profile_id = none →
      bufferInvoke r w = (.schemaError "field required: profile_id", []))
  ∧ (∀ (r : IGRaw) (w : IGWorld), r.post_type = none →
      igInvoke r w = (.schemaError "field required: post_type", []))
  ∧ (∀ (r : LateRaw) (w : LateWorld), r.content = none →
      lateInvoke r w = (.schemaError "field required: content", []))
  ∧ (∀ (i : BufInput) (w : BufWorld),
      (bufferVerifyProfile i.profile_id w.profileCall).1 ≠ .verified →
      Call.bufferPost ∉ (bufferRun i w).2 ∧ Call.bufferHead ∉ (bufferRun i w).2)
  ∧ (∀ (i : IGInput) (w : IGWorld) (res : IGResult),
      (igGetAccountInfo w.acctCall).1 = .inl res →
      Call.igContainer ∉ (igRun i w).2 ∧ Call.igPublish ∉ (igRun i w).2) := by
  refine ⟨?_, ?_, ?_, ?_, ?_, ?_, ?_⟩
  · intro r w h; simp [ayrshareInvoke, ayrshareValidate, h]
  · intro r w h; simp [zapierInvoke, zapierValidate, h]
  · intro r w h; simp [bufferInvoke, bufferValidate, h]
  · intro r w h; simp [igInvoke, igValidate, h]
  · intro r w h; simp [lateInvoke, lateValidate, h]
  · intro i w h
    unfold bufferRun bufferRunE
    rcases hV : bufferVerifyProfile i.profile_id w.profileCall with ⟨vo, cs1⟩
    have hcs1 : cs1 = [Call.bufferProfile] := by
      have := bufferVerifyProfile_calls i.profile_id w.profileCall
      rw [hV] at this
      exact this
    rw [hV] at h
    subst hcs1
    cases hk : pyTruthyOptStr w.apiKeyEnv
    · simp [hk]
    · cases vo
      · exact absurd rfl h
      all_goals
        simp only [hk, Bool.not_true, Bool.false_eq_true, if_false, ite_false]
        cases hC : (i.profile_id == "" || i.text == "") <;> simp [hC]
  · intro i w res h
    unfold igRun
    rcases hA : igGetAccountInfo w.acctCall with ⟨out, cs⟩
    have hcs : cs = [Call.igAccount] := by
      have := igGetAccountInfo_calls w.acctCall
      rw [hA] at this
      exact this
    rw [hA] at h
    subst hcs
    cases out with
    | inr idj => simp at h
    | inl r2 =>
        split
        · simp
        · split
          · simp
          · rcases hS : igValidateSchedule i.schedule_time w.now with r3 | sf <;>
              simp

/-- C5 witness: a Buffer input with an empty profile list (profile not
found) and an Instagram Graph input whose account lookup hits a 500,
at concrete worlds; in both, the posting calls are not attempted, and a
raw Ayrshare request without `post_text` is rejected with zero calls. -/
theorem c5_witness :
    ayrshareInvoke ⟨none, some "http://x/y.png", none, none⟩ sampleNet =
      (.schemaError "field required: post_text", []) ∧
    (Call.bufferPost ∉
        (bufferRun ⟨"p9", "txt", none, none, false⟩
          { apiKeyEnv := some "key123", now := 5,
            profileCall := .resp ⟨200, some (.arr []), "[]", ""⟩,
            headCall := sampleNet, postCall := sampleNet }).2 ∧
      Call.bufferHead ∉
        (bufferRun ⟨"p9", "txt", none, none, false⟩
          { apiKeyEnv := some "key123", now := 5,
            profileCall := .resp ⟨200, some (.arr []), "[]", ""⟩,
            headCall := sampleNet, postCall := sampleNet }).2) ∧
    (Call.igContainer ∉
        (igRun ⟨"image", "cap", "tok", some "http://x/y.png", none⟩
          { now := 5, acctCall := .resp ⟨500, none, "", ""⟩,
            containerCall := sampleNet, publishCall := sampleNet }).2 ∧
      Call.igPublish ∉
        (igRun ⟨"image", "cap", "tok", some "http://x/y.png", none⟩
          { now := 5, acctCall := .resp ⟨500, none, "", ""⟩,
            containerCall := sampleNet, publishCall := sampleNet }).2) :=
  ⟨c5_no_network_before_validation.1 _ _ rfl,
   c5_no_network_before_validation.2.2.2.2.2.1 _ _ (by decide),
   c5_no_network_before_validation.2.2.2.2.2.2 _ _ (.acctApiError 500) rfl⟩

theorem ayrshareRun_snd (i : AyrInput) (w : NetOutcome) :
    (ayrshareRun i w).2 = (ayrshareRunE i w).2 := by
  unfold ayrshareRun
  rcases ayrshareRunE i w with ⟨res, cs⟩
  cases res <;> rfl

theorem lateRun_snd (i : LateInput) (w : LateWorld) :
    (lateRun i w).2 = (lateRunE i w).2 := by
  unfold lateRun
  rcases lateRunE i w with ⟨res, cs⟩
  cases res <;> rfl

theorem bufferDoPost_calls (w : BufWorld) (cs : List Call) :
    (bufferDoPost w cs).2 = cs ++ [Call.bufferPost] := by
  unfold bufferDoPost
  rw [requestsSend_eq _ _ _ bufferPostUrl_ok]
  cases w.postCall <;> rfl

theorem igCreateContainer_calls_image (o : NetOutcome) :
    (igCreateContainer "image" o).2 = [Call.igContainer] := by
  unfold igCreateContainer
  rw [requestsSend_eq _ _ _ igContainerUrl_ok]
  simp only [bne_self_eq_false, Bool.false_eq_true, if_false, ite_false]
  cases o <;> rfl

theorem igPublishMedia_calls (sf : Option Int) (o : NetOutcome) :
    (igPublishMedia sf o).2 = [Call.igPublish] := by
  unfold igPublishMedia
  rw [requestsSend_eq _ _ _ igPublishUrl_ok]
  cases o <;> rfl

/-! ## Claim C4 -/

/-- C4 counterexample: the Ayrshare adapter performs no future-time
check on its schedule pair.  The instant 2020-01-01T00:00Z is in the past
at every plausible validation time, yet `_run` accepts it, dispatches the
posting call, and reports a scheduled success — the claim requires a
future-time rejection before the posting call for every adapter that
accepts a schedule instant. -/
theorem c4_counterexample :
    ayrshareRun ⟨"caption", none, some "2020-01-01", some "00:00"⟩
        (.resp ⟨200, some (.obj [("id", Json.str "abc")]), "", ""⟩) =
      ({ status := "success",
         message := "Post scheduled successfully for 2020-01-01 at 00:00 on Instagram @kskk.2031",
         post_id := some (Json.str "abc"),
         scheduled := some true,
         schedule_time := some "2020-01-01 00:00" },
       [.ayrsharePost]) := rfl

/-- C4 amended: the Buffer (for truthy, i.e. nonzero, timestamps) and
Instagram Graph adapters reject a schedule instant that is not strictly
in the future before their posting call and accept a future instant
within the provider horizon (none for Buffer, 75 days for Instagram
Graph, then proceeding to the next call); the Late adapter does the same
(365-day horizon) only for offset-aware schedule strings — an
offset-naive string makes the `dt <= datetime.now(timezone.utc)`
comparison raise `TypeError`, which escapes the local `except ValueError`
and is caught by `_run`'s top-level handler, returning the
unexpected-error record with no call, for past and future instants
alike; the Ayrshare adapter performs no comparison with the clock at all
and dispatches its posting call for every well-formed schedule pair. -/
theorem c4_amended_schedule_validation :
    (∀ (i : BufInput) (w : BufWorld) (t : Int) (cs1 : List Call),
      pyTruthyOptStr w.apiKeyEnv = true → i.profile_id ≠ "" → i.text ≠ "" →
      bufferVerifyProfile i.profile_id w.profileCall = (.verified, cs1) →
      i.media = none → i.scheduled_at = some t → t ≠ 0 → t ≤ w.now →
      bufferRun i w = (.scheduledInPast w.now t, cs1))
  ∧ (∀ (i : BufInput) (w : BufWorld) (t : Int) (cs1 : List Call),
      pyTruthyOptStr w.apiKeyEnv = true → i.profile_id ≠ "" → i.text ≠ "" →
      bufferVerifyProfile i.profile_id w.profileCall = (.verified, cs1) →
      i.media = none → i.scheduled_at = some t → w.now < t →
      (bufferRun i w).2 = cs1 ++ [Call.bufferPost])
  ∧ (∀ (i : IGInput) (w : IGWorld) (t : Int),
      i.post_type = "image" → pyTruthyOptStr i.image_url = true →
      i.schedule_time = some (.instant t) → t ≤ w.now →
      igRun i w = (.invalidScheduleTime, []))
  ∧ (∀ (i : IGInput) (w : IGWorld) (t : Int),
      i.post_type = "image" → pyTruthyOptStr i.image_url = true →
      i.schedule_time = some (.instant t) → w.now < t →
      t ≤ w.now + 75 * 24 * 60 * 60 →
      ∃ rest, (igRun i w).2 = Call.igAccount :: rest)
  ∧ (∀ (i : LateInput) (w : LateWorld) (t : Int) (k : String)
        (d : Option String),
      lateCheckEnv w = .inr (k, d) → pyTruthyOptStr i.account_id = true →
      lateValidateInputs i.post_type i.content i.media_urls = none →
      i.schedule_time = some (.instant t) → t ≤ w.now →
      lateRun i w = (.scheduleInPast, []))
  ∧ (∀ (i : LateInput) (w : LateWorld) (t : Int) (k : String)
        (d : Option String),
      lateCheckEnv w = .inr (k, d) → pyTruthyOptStr i.account_id = true →
      lateValidateInputs i.post_type i.content i.media_urls = none →
      i.schedule_time = some (.instant t) → w.now < t →
      (t - w.now) / 86400 ≤ 365 →
      (lateRun i w).2 = [Call.latePost])
  ∧ (∀ (i : LateInput) (w : LateWorld) (t : Int) (k : String)
        (d : Option String),
      lateCheckEnv w = .inr (k, d) → pyTruthyOptStr i.account_id = true →
      lateValidateInputs i.post_type i.content i.media_urls = none →
      i.schedule_time = some (.naiveInstant t) →
      lateRun i w = (.toolUnexpected, []))
  ∧ (∀ (pt : String) (iu : Option String) (d t : String) (w : NetOutcome),
      d ≠ "" → t ≠ "" → isoCombineOk d t = true →
      (ayrshareRun ⟨pt, iu, some d, some t⟩ w).2 = [Call.ayrsharePost]) := by
  refine ⟨?_, ?_, ?_, ?_, ?_, ?_, ?_, ?_⟩
  · intro i w t cs1 hk hp ht hV hm hs hnz hle
    unfold bufferRun bufferRunE bufferAfterMedia
    rw [hV]
    simp [hk, hp, ht, hm, hs, hnz, hle, pyTruthyOptStr_none]
  · intro i w t cs1 hk hp ht hV hm hs hlt
    unfold bufferRun bufferRunE bufferAfterMedia
    rw [hV]
    have hnle : ¬ (t ≤ w.now) := not_le.mpr hlt
    rcases hD : bufferDoPost w cs1 with ⟨dres, dcs⟩
    have hdcs : dcs = cs1 ++ [Call.bufferPost] := by
      have := bufferDoPost_calls w cs1
      rw [hD] at this
      exact this
    rcases ne_or_eq t 0 with hnz | hz
    · cases dres <;>
        simp [hk, hp, ht, hm, hs, hnz, hnle, pyTruthyOptStr_none, hD, hdcs]
    · cases dres <;>
        simp [hk, hp, ht, hm, hs, hz, pyTruthyOptStr_none, hD, hdcs]
  · intro i w t hp hiu hs hle
    unfold igRun igValidateSchedule
    simp [hp, hiu, hs, hle]
  · intro i w t hp hiu hs hlt hhor
    unfold igRun igValidateSchedule
    have hnle : ¬ (t ≤ w.now) := not_le.mpr hlt
    have hnfar : ¬ (w.now + 6480000 < t) := by omega
    simp [hp, hiu, hs, hnle, hnfar]
    rcases hA : igGetAccountInfo w.acctCall with ⟨out, cs⟩
    have hcs : cs = [Call.igAccount] := by
      have := igGetAccountInfo_calls w.acctCall
      rw [hA] at this
      exact this
    subst hcs
    cases out with
    | inl r2 => exact ⟨[], rfl⟩
    | inr idj =>
        rcases hC : igCreateContainer "image" w.containerCall with ⟨cout, ccs⟩
        have hccs : ccs = [Call.igContainer] := by
          have := igCreateContainer_calls_image w.containerCall
          rw [hC] at this
          exact this
        subst hccs
        cases cout with
        | inl r3 => exact ⟨[Call.igContainer], rfl⟩
        | inr cid =>
            rw [igPublishMedia_calls]
            exact ⟨[Call.igContainer, Call.igPublish], rfl⟩
  · intro i w t k d hEnv hAcct hIn hs hle
    unfold lateRun lateRunE lateValidateSchedule
    rw [hEnv, hIn]
    simp [hAcct, hs, hle]
  · intro i w t k d hEnv hAcct hIn hs hlt hhor
    rw [lateRun_snd]
    unfold lateRunE lateValidateSchedule
    rw [hEnv, hIn]
    have hnle : ¬ (t ≤ w.now) := not_le.mpr hlt
    have hnfar : ¬ ((t - w.now) / 86400 > 365) := not_lt.mpr hhor
    rw [requestsSend_eq _ _ _ latePostUrl_ok]
    simp [hAcct, hs, hnle, hnfar]
  · intro i w t k d hEnv hAcct hIn hs
    unfold lateRun lateRunE lateValidateSchedule
    rw [hEnv, hIn]
    simp [hAcct, hs]
  · intro pt iu d t w hd ht hiso
    rw [ayrshareRun_snd]
    unfold ayrshareRunE
    rw [requestsSend_eq _ _ _ ayrshareApiUrl_ok]
    simp [pyTruthyOptStr_some, hd, ht, hiso]
    cases w <;> rfl

/-- C4 witness: each accepted-side and rejected-side conjunct of the
amended statement instantiated at concrete inputs and worlds. -/
theorem c4_witness :
    bufferRun ⟨"p5", "hi", none, some 50, false⟩
        { apiKeyEnv := some "key123", now := 100,
          profileCall := .resp ⟨200,
            some (.arr [Json.obj [("id", Json.str "p5"),
                                  ("service", Json.str "instagram")]]),
            "x", ""⟩,
          headCall := sampleNet, postCall := sampleNet } =
      (.scheduledInPast 100 50, [Call.bufferProfile]) ∧
    igRun ⟨"image", "cap", "tok", some "http://img/x.png",
           some (.instant 50)⟩
        { now := 100, acctCall := sampleNet, containerCall := sampleNet,
          publishCall := sampleNet } =
      (.invalidScheduleTime, []) ∧
    lateRun ⟨some "acct", "hello", none, some (.instant 50), "feed",
             none, none⟩
        { apiKeyEnv := some "0123456789ABC", accountIdEnv := none,
          now := 100, postCall := sampleNet } =
      (.scheduleInPast, []) ∧
    (lateRun ⟨some "acct", "hello", none, some (.instant 200), "feed",
              none, none⟩
        { apiKeyEnv := some "0123456789ABC", accountIdEnv := none,
          now := 100, postCall := sampleNet }).2 = [Call.latePost] ∧
    lateRun ⟨some "acct", "hello", none, some (.naiveInstant 200), "feed",
             none, none⟩
        { apiKeyEnv := some "0123456789ABC", accountIdEnv := none,
          now := 100, postCall := sampleNet } =
      (.toolUnexpected, []) ∧
    (ayrshareRun ⟨"hi", none, some "2030-05-05", some "10:30"⟩
        sampleNet).2 = [Call.ayrsharePost] :=
  ⟨c4_amended_schedule_validation.1 _ _ 50 [Call.bufferProfile]
      rfl (by decide) (by decide) rfl rfl rfl (by decide) (by decide),
   c4_amended_schedule_validation.2.2.1 _ _ 50 rfl rfl rfl (by decide),
   c4_amended_schedule_validation.2.2.2.2.1 _ _ 50 "0123456789ABC" none
      rfl rfl rfl rfl (by decide),
   c4_amended_schedule_validation.2.2.2.2.2.1 _ _ 200 "0123456789ABC" none
      rfl rfl rfl rfl (by decide) (by decide),
   c4_amended_schedule_validation.2.2.2.2.2.2.1 _ _ 200 "0123456789ABC" none
      rfl rfl rfl rfl,
   c4_amended_schedule_validation.2.2.2.2.2.2.2 "hi" none "2030-05-05" "10:30"
      _ (by decide) (by decide) (by decide)⟩

/-! ## Claim C3 -/

/-- C3 counterexample: a 429 on the Buffer profile-lookup call — an HTTP
call made by the Buffer adapter — produces the generic
"Failed to fetch profiles: 429" error, which is not a rate-limit-specific
message and does not identify any request cap, contradicting the claim
for every adapter and every HTTP call. -/
theorem c3_counterexample :
    bufferRun ⟨"p1", "hello", none, none, false⟩
        { apiKeyEnv := some "key123", now := 0,
          profileCall := .resp ⟨429, some (.obj []), "limited", ""⟩,
          headCall := sampleNet, postCall := sampleNet } =
      (.profileFetchFailed 429, [Call.bufferProfile]) ∧
    (BufResult.profileFetchFailed 429).errorMsg =
      "Failed to fetch profiles: 429" ∧
    strContains (BufResult.profileFetchFailed 429).errorMsg "ate limit" =
      false :=
  ⟨rfl, rfl, by decide⟩

/-- C3 amended: a 429 on the dedicated posting call yields an error
result with a rate-limit message in the Ayrshare, Late, Buffer and
Instagram Graph adapters (the same for the Instagram Graph auxiliary
calls), but only Buffer's message names the provider's request cap; a
429 on Buffer's auxiliary profile-lookup call is reported as a generic
fetch failure; and the Zapier status dispatch has no 429 branch, so a
429 lands in the warning-marked "Unexpected response" branch. -/
theorem c3_amended_rate_limit_handling :
    (∀ (pt : String) (iu : Option String) (b : Option Json) (txt ct : String),
      ayrshareRun ⟨pt, iu, none, none⟩ (.resp ⟨429, b, txt, ct⟩) =
        ({ status := "error",
           message := "Rate limit exceeded - please try again later",
           post_id := none }, [Call.ayrsharePost]))
  ∧ (∀ resp : HttpResponse, resp.status = 429 →
      lateRespond (.ok resp) = .inl .rateLimited)
  ∧ LateResult.rateLimited.errorMsg =
      "Rate limit exceeded. Too many requests made recently."
  ∧ (∀ resp : HttpResponse, resp.status = 429 →
      zapierRespond resp = ⟨.warning, .unexpectedStatus⟩)
  ∧ (∀ (w : BufWorld) (cs : List Call) (resp : HttpResponse),
      w.postCall = .resp resp → resp.status = 429 →
      bufferDoPost w cs = (.ok .rateLimited, cs ++ [Call.bufferPost]))
  ∧ BufResult.rateLimited.errorMsg =
      "Rate limit exceeded. Buffer allows 10 requests per minute."
  ∧ (∀ (pid : String) (j : Json) (txt ct : String),
      bufferVerifyProfile pid (.resp ⟨429, some j, txt, ct⟩) =
        (.fetchFailed 429, [Call.bufferProfile]))
  ∧ (∀ resp : HttpResponse, resp.status = 429 →
      (igGetAccountInfo (.resp resp)).1 = .inl .rateLimited ∧
      (igCreateContainer "image" (.resp resp)).1 = .inl .rateLimited ∧
      (igPublishMedia none (.resp resp)).1 = .rateLimited)
  ∧ IGResult.rateLimited.errorMsg =
      "API rate limit exceeded. Please wait before trying again." := by
  refine ⟨?_, ?_, rfl, ?_, ?_, rfl, ?_, ?_, rfl⟩
  · intro pt iu b txt ct
    rfl
  · intro resp h
    unfold lateRespond
    simp [h]
  · intro resp h
    unfold zapierRespond
    simp [h]
  · intro w cs resp hpost h
    unfold bufferDoPost
    rw [requestsSend_eq _ _ _ bufferPostUrl_ok, hpost]
    simp [h]
  · intro pid j txt ct
    rfl
  · intro resp h
    refine ⟨?_, ?_, ?_⟩
    · unfold igGetAccountInfo
      rw [requestsSend_eq _ _ _ igMeUrl_ok]
      simp [h]
    · unfold igCreateContainer
      rw [requestsSend_eq _ _ _ igContainerUrl_ok]
      simp [h]
    · unfold igPublishMedia
      rw [requestsSend_eq _ _ _ igPublishUrl_ok]
      simp [h]

/-- C3 witness: the hypothesis-bearing conjuncts of the amended statement
instantiated at a concrete 429 response. -/
theorem c3_witness :
    lateRespond (.ok ⟨429, some (.obj []), "", ""⟩) = .inl .rateLimited ∧
    zapierRespond ⟨429, some (.obj []), "", ""⟩ =
      ⟨.warning, .unexpectedStatus⟩ ∧
    bufferDoPost
        { apiKeyEnv := some "key123", now := 0, profileCall := sampleNet,
          headCall := sampleNet,
          postCall := .resp ⟨429, some (.obj []), "", ""⟩ } [] =
      (.ok .rateLimited, [Call.bufferPost]) ∧
    (igGetAccountInfo (.resp ⟨429, some (.obj []), "", ""⟩)).1 =
      .inl .rateLimited :=
  ⟨c3_amended_rate_limit_handling.2.1 _ rfl,
   c3_amended_rate_limit_handling.2.2.2.1 _ rfl,
   c3_amended_rate_limit_handling.2.2.2.2.1 _ [] _ rfl rfl,
   (c3_amended_rate_limit_handling.2.2.2.2.2.2.2.1 _ rfl).1⟩

/-! ## Claim C2 -/

/-- C2 counterexample: the Ayrshare adapter, on a 200 response whose
JSON body is `{}` — no recognizable post identifier anywhere — still
reports outcome `"success"` with a null `post_id`, contradicting the
claim that a 200 response lacking the expected identifier yields outcome
"error". -/
theorem c2_counterexample :
    ayrshareRun ⟨"hi", none, none, none⟩
        (.resp ⟨200, some (.obj []), "{}", ""⟩) =
      ({ status := "success",
         message := "Post published successfully to Instagram @kskk.2031",
         post_id := none, scheduled := some false, schedule_time := none },
       [Call.ayrsharePost]) := rfl

/-- C2 amended: on a 200 response carrying the provider identifier, the
outcome is success and the identifier is propagated unchanged (Ayrshare
top-level `id`, Buffer first update's `id`, Late body `id`); any non-200
status yields an error in Ayrshare, and any status `>= 400` in Late; but
a 200 response lacking the identifier yields an error only in Buffer
("Unexpected response format") — Ayrshare still reports success with a
null `post_id`, and Late's success path substitutes `"unknown"`. -/
theorem c2_amended_success_normalization :
    (∀ (pt : String) (iu : Option String) (fs : List (String × Json))
        (txt ct : String) (v : Json),
      fs.lookup "id" = some v →
      ayrshareRun ⟨pt, iu, none, none⟩ (.resp ⟨200, some (.obj fs), txt, ct⟩) =
        (ayrSuccess none (some v), [Call.ayrsharePost]))
  ∧ (∀ (sched : Option (String × String)) (resp : HttpResponse),
      resp.status ≠ 200 →
      ∃ r, ayrRespond sched resp = .ok r ∧ r.status = "error")
  ∧ (∀ (pt : String) (iu : Option String) (fs : List (String × Json))
        (txt ct : String),
      fs.lookup "id" = none → fs.lookup "data" = none →
      ayrshareRun ⟨pt, iu, none, none⟩ (.resp ⟨200, some (.obj fs), txt, ct⟩) =
        (ayrSuccess none none, [Call.ayrsharePost]))
  ∧ (∀ (fs gs : List (String × Json)) (rest : List Json),
      fs.lookup "updates" = some (.arr (Json.obj gs :: rest)) →
      bufferHandle200 (.obj fs) =
        .ok (.createdOk (gs.lookup "id")
          (match gs.lookup "posted_at" with
           | some pv => pv.pyTruthy
           | none => false)))
  ∧ (∀ fs : List (String × Json),
      fs.lookup "updates" = none →
      bufferHandle200 (.obj fs) = .ok .unexpectedFormat)
  ∧ (∀ (fs : List (String × Json)) (txt ct : String),
      txt ≠ "" →
      lateRespond (.ok ⟨200, some (.obj fs), txt, ct⟩) = .inr (.obj fs))
  ∧ (∀ resp : HttpResponse, 400 ≤ resp.status →
      ∃ e, lateRespond (.ok resp) = .inl e ∧ e.successFlag = false) := by
  refine ⟨?_, ?_, ?_, ?_, ?_, ?_, ?_⟩
  · intro pt iu fs txt ct v h
    unfold ayrshareRun ayrshareRunE
    rw [requestsSend_eq _ _ _ ayrshareApiUrl_ok]
    simp only [pyTruthyOptStr_none, Bool.and_self, Bool.or_self,
      Bool.false_eq_true, if_false, ite_false]
    unfold ayrRespond ayrExtractId
    simp [Json.hasKey, Json.item, h, Except.map, Bind.bind, Except.bind,
      Pure.pure, Except.pure]
  · intro sched resp h
    unfold ayrRespond
    rw [if_neg h]
    split
    · exact ⟨_, rfl, rfl⟩
    · split
      · exact ⟨_, rfl, rfl⟩
      · split
        · exact ⟨_, rfl, rfl⟩
        · exact ⟨_, rfl, rfl⟩
  · intro pt iu fs txt ct hid hdata
    unfold ayrshareRun ayrshareRunE
    rw [requestsSend_eq _ _ _ ayrshareApiUrl_ok]
    simp only [pyTruthyOptStr_none, Bool.and_self, Bool.or_self,
      Bool.false_eq_true, if_false, ite_false]
    unfold ayrRespond ayrExtractId
    simp [Json.hasKey, Json.item, hid, hdata, Except.map, Bind.bind,
      Except.bind, Pure.pure, Except.pure]
  · intro fs gs rest h
    unfold bufferHandle200
    cases hp : gs.lookup "posted_at" <;>
      simp [Json.hasKey, Json.item, Json.pyLen, Json.pyIndexZero,
        Json.dictGet, h, hp, Bind.bind, Except.bind, Pure.pure, Except.pure]
  · intro fs h
    unfold bufferHandle200
    simp [Json.hasKey, h, Bind.bind, Except.bind, Pure.pure, Except.pure]
  · intro fs txt ct h
    unfold lateRespond
    simp [h]
  · intro resp h
    by_cases h1 : resp.status = 401
    · exact ⟨.authFailed, by simp [lateRespond, h1], rfl⟩
    · by_cases h3 : resp.status = 403
      · exact ⟨.forbidden, by simp [lateRespond, h1, h3], rfl⟩
      · by_cases h9 : resp.status = 429
        · exact ⟨.rateLimited, by simp [lateRespond, h1, h3, h9], rfl⟩
        · exact ⟨.apiError resp.status,
            by simp [lateRespond, h1, h3, h9, h], rfl⟩

/-- C2 witness: the amended conjuncts instantiated at concrete bodies:
an Ayrshare 200 with `id`, an Ayrshare 200 with an empty object, a
Buffer 200 with one update, a Buffer 200 without `updates`, a Late 200
with `id`, and a Late 500. -/
theorem c2_witness :
    ayrshareRun ⟨"hi", none, none, none⟩
        (.resp ⟨200, some (.obj [("id", Json.str "p77")]), "x", ""⟩) =
      (ayrSuccess none (some (Json.str "p77")), [Call.ayrsharePost]) ∧
    ayrshareRun ⟨"hi", none, none, none⟩
        (.resp ⟨200, some (.obj [("other", Json.num 3)]), "x", ""⟩) =
      (ayrSuccess none none, [Call.ayrsharePost]) ∧
    bufferHandle200
        (.obj [("updates", Json.arr [Json.obj [("id", Json.str "b1")]])]) =
      .ok (.createdOk (some (Json.str "b1")) false) ∧
    bufferHandle200 (.obj [("ok", Json.bool true)]) =
      .ok .unexpectedFormat ∧
    lateRespond (.ok ⟨200, some (.obj [("id", Json.str "L1")]), "x", ""⟩) =
      .inr (.obj [("id", Json.str "L1")]) ∧
    (∃ e, lateRespond (.ok ⟨500, none, "", ""⟩) = .inl e ∧
      e.successFlag = false) :=
  ⟨c2_amended_success_normalization.1 "hi" none _ "x" "" _ rfl,
   c2_amended_success_normalization.2.2.1 "hi" none _ "x" "" rfl rfl,
   c2_amended_success_normalization.2.2.2.1
      [("updates", Json.arr [Json.obj [("id", Json.str "b1")]])]
      [("id", Json.str "b1")] [] rfl,
   c2_amended_success_normalization.2.2.2.2.1 _ rfl,
   c2_amended_success_normalization.2.2.2.2.2.1 _ "x" "" (by decide),
   c2_amended_success_normalization.2.2.2.2.2.2 _ (by decide)⟩

/-! ## Claim C6 -/

/-- C6 counterexample: the Late adapter accepts
`media_urls = ["ftp://x.png"]` — `_validate_inputs` only counts media
URLs and never inspects their scheme — and proceeds to dispatch the
posting call and report success, contradicting the claim that every
adapter accepting media URLs rejects a non-http(s) URL with a validation
error before any posting call. -/
theorem c6_counterexample :
    lateRun
        { account_id := some "acct1", content := "Check this out",
          media_urls := some ["ftp://x.png"], schedule_time := none,
          post_type := "feed", hashtags := none, mentions := none }
        { apiKeyEnv := some "0123456789ABC", accountIdEnv := none, now := 0,
          postCall := .resp ⟨200, some (.obj [("id", Json.str "p1")]), "{}", ""⟩ } =
      (.posted (Json.str "p1") false, [Call.latePost]) := rfl

/-- C6 amended: only the Ayrshare adapter validates the media URL scheme
— a non-blank `image_url` without an `http://`/`https://` prefix is
rejected by its input schema with zero network calls.  The Late input
validator is insensitive to the URL text (it depends only on the list
length), and the Buffer media check sends a HEAD request instead, whose
pre-network `MissingSchema`/`InvalidSchema` failure for a non-http(s)
URL is caught and reported as an inaccessible-media error before the
posting call. -/
theorem c6_amended_scheme_validation :
    (∀ (r : AyrRaw) (w : NetOutcome) (u : String),
      r.image_url = some u → (pyStrip u == "") = false →
      strStartsWith u "http://" = false → strStartsWith u "https://" = false →
      ∃ m, ayrshareInvoke r w = (.schemaError m, []))
  ∧ (∀ (pt c : String) (us vs : List String), us.length = vs.length →
      lateValidateInputs pt c (some us) = lateValidateInputs pt c (some vs))
  ∧ (∀ (m : String) (o : NetOutcome), urlDispatchable m = false →
      bufferValidateMedia m o = (.requestFailed, [])) := by
  refine ⟨?_, ?_, ?_⟩
  · intro r w u hu hstrip h1 h2
    have hval : ∃ m, ayrshareValidate r = .error m := by
      have hall : r.image_url.all (fun v =>
          pyStrip v == "" || strStartsWith v "http://" ||
            strStartsWith v "https://") = false := by
        rw [hu]
        simp [Option.all, hstrip, h1, h2]
      unfold ayrshareValidate
      cases hpt : r.post_text with
      | none => exact ⟨_, rfl⟩
      | some pt =>
          simp only [hall, Bool.not_false, if_true, ite_true]
          split
          · exact ⟨_, rfl⟩
          · split
            · exact ⟨_, rfl⟩
            · exact ⟨_, rfl⟩
    rcases hval with ⟨m, hm⟩
    exact ⟨m, by simp [ayrshareInvoke, hm]⟩
  · intro pt c us vs h
    simp only [lateValidateInputs]
    rw [h]
  · intro m o h
    unfold bufferValidateMedia requestsSend
    rw [h]
    simp

/-- C6 witness: the amended conjuncts instantiated at an `ftp://` media
URL. -/
theorem c6_witness :
    (∃ m, ayrshareInvoke ⟨some "hi", some "ftp://x.png", none, none⟩
        sampleNet = (.schemaError m, [])) ∧
    lateValidateInputs "feed" "hello" (some ["ftp://x.png"]) =
      lateValidateInputs "feed" "hello" (some ["https://ok/x.png"]) ∧
    bufferValidateMedia "ftp://x.png" sampleNet = (.requestFailed, []) :=
  ⟨c6_amended_scheme_validation.1 _ sampleNet "ftp://x.png" rfl
      (by decide) (by decide) (by decide),
   c6_amended_scheme_validation.2.1 "feed" "hello" _ _ rfl,
   c6_amended_scheme_validation.2.2 "ftp://x.png" sampleNet (by decide)⟩

theorem lateCollectHashtags_eq_filter (base : String) (hs : List String) :
    lateCollectHashtags base hs =
      (hs.map (fun t => "#" ++ t)).filter (fun h => !strContains base h) := by
  have go : ∀ (l : List String) (acc : List String),
      l.foldl (fun acc t =>
        let h := "#" ++ t
        if strContains base h then acc else acc ++ [h]) acc =
      acc ++ (l.map (fun t => "#" ++ t)).filter
        (fun h => !strContains base h) := by
    intro l
    induction l with
    | nil => intro acc; simp
    | cons t l ih =>
        intro acc
        simp only [List.foldl_cons, List.map_cons, List.filter_cons]
        by_cases hc : strContains base ("#" ++ t)
        · simp [hc, ih]
        · simp [hc, ih]
  simpa [lateCollectHashtags] using go hs []

/-! ## Claim C7 -/

/-- C7 counterexample: the Zapier builder has no native hashtag field
either, yet it appends the normalized `#fun` token even though `#fun` is
already present in the caption, space-separated on the same line rather
than on a new paragraph — contradicting the claim for every adapter
without native hashtag/mention fields. -/
theorem c7_counterexample :
    strContains "Hello #fun" "#fun" = true ∧
    zapierFullContent "Hello #fun" (some ["fun"]) = "Hello #fun #fun" := by
  exact ⟨by decide, by decide⟩

/-- C7 amended: the Late builder behaves as claimed — it appends exactly
the `@user` tokens not already substrings of the evolving text and then
exactly the `#tag` tokens not already substrings of the mention-extended
caption, space-joined on a new `"\n\n"` paragraph after the mentions;
the Zapier builder instead appends every normalized hashtag,
space-separated on the same line, with no presence check and no mention
handling. -/
theorem c7_amended_content_formatting :
    (∀ (content : String) (hashtags mentions : List String),
      lateFormatContent content (some hashtags) (some mentions) =
        (let b := lateAddMentions (pyStrip content) mentions
         let hl := (hashtags.map (fun t => "#" ++ t)).filter
             (fun h => !strContains b h)
         if hl.isEmpty then b else b ++ "\n\n" ++ " ".intercalate hl))
  ∧ (∀ (base m : String),
      lateAddMentions base [m] =
        if strContains base ("@" ++ m) then base
        else base ++ " " ++ ("@" ++ m))
  ∧ (∀ (c : String) (ts : List String), ts ≠ [] →
      zapierFullContent c (some ts) =
        c ++ " " ++ " ".intercalate (ts.map zapierNormTag)) := by
  refine ⟨?_, ?_, ?_⟩
  · intro content hashtags mentions
    simp [lateFormatContent, lateCollectHashtags_eq_filter]
  · intro base m
    rfl
  · intro c ts h
    cases ts with
    | nil => exact absurd rfl h
    | cons a l => simp [zapierFullContent]

/-- C7 witness: the Zapier conjunct instantiated at a one-element
hashtag list. -/
theorem c7_witness :
    zapierFullContent "Hi" (some ["x"]) =
      "Hi" ++ " " ++ " ".intercalate (["x"].map zapierNormTag) :=
  c7_amended_content_formatting.2.2 "Hi" ["x"] (by decide)

theorem dropWhile_hash_self (l : List Char) :
    (l.dropWhile (· == '#')).dropWhile (· == '#') = l.dropWhile (· == '#') := by
  induction l with
  | nil => rfl
  | cons a l ih =>
      by_cases h : a = '#'
      · simp [List.dropWhile_cons, h, ih]
      · simp [List.dropWhile_cons, h]

/-! ## Claim C8 -/

/-- C8 counterexample: the Late builder's hashtag step is
`f"#{tag}"` with no stripping, so the already-`#`-prefixed tag `"#fun"`
comes out doubled: the formatted caption contains `"##fun"`. -/
theorem c8_counterexample :
    lateFormatContent "x" (some ["#fun"]) none = "x\n\n##fun" ∧
    strContains (lateFormatContent "x" (some ["#fun"]) none) "##fun" = true := by
  exact ⟨by decide, by decide⟩

/-- C8 amended: hashtag formatting is idempotent in the Zapier adapter —
its normalization strips every leading `'#'` before prepending one, so a
normalized tag renormalizes to itself and a formatted tag list is left
unchanged by reformatting; the Late adapter's hashtag step (see the
counterexample) is the one that doubles an existing prefix. -/
theorem c8_amended_hashtag_idempotence :
    (∀ t : String, zapierNormTag (zapierNormTag t) = zapierNormTag t)
  ∧ (∀ ts : List String,
      (ts.map zapierNormTag).map zapierNormTag = ts.map zapierNormTag) := by
  have hone : ∀ t : String, zapierNormTag (zapierNormTag t) = zapierNormTag t := by
    intro t
    unfold zapierNormTag
    have : ('#' :: t.data.dropWhile (· == '#')).dropWhile (· == '#') =
        t.data.dropWhile (· == '#') := by
      rw [List.dropWhile_cons]
      simp [dropWhile_hash_self]
    rw [this]
  exact ⟨hone, fun ts => by
    rw [List.map_map]
    exact List.map_congr_left fun t _ => hone t⟩

end CrewZap
